import Mathlib

/-!
Verification of the SACL MCP server core (bias detection, score fusion,
code analysis, mock graph client, orchestrator) against its specification.

The TypeScript sources are shallowly embedded as executable Lean
definitions.  JavaScript numbers are modelled as exact rationals (`ℚ`),
JavaScript strings as Lean `String`s, `Date` values as natural-number
timestamps passed in explicitly, and the Babel parser as an explicit
`String → Option _` parameter (so that both a successful parse and a
parse failure can be analysed).  String primitives (`includes`, `trim`,
`split`, `replace`, …) are re-implemented by structural recursion over
character lists so that every definition evaluates inside the kernel.
-/

/-! ## JavaScript string primitives -/

namespace Js

def isWs (c : Char) : Bool := c.isWhitespace

/-- Is `pre` a prefix of `s` (character lists)? -/
def startsWithL : List Char → List Char → Bool
  | [], _ => true
  | _ :: _, [] => false
  | p :: ps, c :: cs => p == c && startsWithL ps cs

/-- Does `hay` contain `nee` as a contiguous substring?  Models
`String.prototype.includes` (the empty string is contained in every
string). -/
def containsL : List Char → List Char → Bool
  | [], nee => nee.isEmpty
  | c :: t, nee => startsWithL nee (c :: t) || containsL t nee

def startsWith (s pre : String) : Bool := startsWithL pre.data s.data

def includes (s sub : String) : Bool := containsL s.data sub.data

def toLower (s : String) : String := String.mk (s.data.map Char.toLower)

def trimL (cs : List Char) : List Char :=
  ((cs.dropWhile isWs).reverse.dropWhile isWs).reverse

/-- Models `String.prototype.trim`. -/
def trim (s : String) : String := String.mk (trimL s.data)

/-- Number of leading whitespace characters, i.e.
`line.length - line.trimStart().length`. -/
def leadingWs (s : String) : Nat := (s.data.takeWhile isWs).length

def splitOnCharL (sep : Char) : List Char → List (List Char)
  | [] => [[]]
  | c :: t =>
    if c == sep then [] :: splitOnCharL sep t
    else
      match splitOnCharL sep t with
      | [] => [[c]]
      | l :: ls => (c :: l) :: ls

/-- Models `String.prototype.split(sep)` for a one-character separator
(e.g. `split('\n')`, `split(',')`, `split('/')`). -/
def splitOnChar (sep : Char) (s : String) : List String :=
  (splitOnCharL sep s.data).map String.mk

mutual
/-- Inside a token: accumulate characters until whitespace. -/
def splitWsGo : List Char → List Char → List String
  | [], acc => [String.mk acc.reverse]
  | c :: t, acc =>
    if isWs c then String.mk acc.reverse :: splitWsSkip t
    else splitWsGo t (c :: acc)
/-- Inside a whitespace run: skip further whitespace. -/
def splitWsSkip : List Char → List String
  | [] => [""]
  | c :: t => if isWs c then splitWsSkip t else splitWsGo t [c]
end

/-- Models `String.prototype.split(/\s+/)`: maximal whitespace runs are
separators; a leading or trailing run contributes an empty token, and
`"".split(/\s+/)` is `[""]`. -/
def splitWs (s : String) : List String := splitWsGo s.data []

def replaceFirstL (pat rep : List Char) : List Char → List Char
  | [] => if pat.isEmpty then rep else []
  | c :: t =>
    if startsWithL pat (c :: t) then rep ++ (c :: t).drop pat.length
    else c :: replaceFirstL pat rep t

/-- Models `String.prototype.replace(pat, rep)` for a plain-string
pattern: only the first occurrence is replaced. -/
def replaceFirst (s pat rep : String) : String :=
  String.mk (replaceFirstL pat.data rep.data s.data)

/-- Index (from the left) of the last occurrence of `c`, if any. -/
def lastIdxOf (c : Char) (cs : List Char) : Option Nat :=
  match cs with
  | [] => none
  | x :: t =>
    match lastIdxOf c t with
    | some i => some (i + 1)
    | none => if x == c then some 0 else none

/-- Models `s.replace(/\.[^.]+$/, '.test$&')`: when the string ends in a
dot followed by at least one non-dot character, insert `.test` before
that final extension; otherwise the string is unchanged. -/
def replaceExtWithTest (s : String) : String :=
  match lastIdxOf '.' s.data with
  | none => s
  | some i =>
    if i + 1 < s.data.length then
      String.mk (s.data.take i ++ ".test".data ++ s.data.drop i)
    else s

/-- Stable insertion: `x` is placed before the first element `y` that
does not satisfy `lt y x` (i.e. that need not stay strictly before
`x`), so elements comparing equal keep their input order. -/
def orderedInsert (lt : α → α → Bool) (x : α) : List α → List α
  | [] => [x]
  | y :: ys => if lt y x then y :: orderedInsert lt x ys else x :: y :: ys

/-- Stable sort modelling `Array.prototype.sort(cmp)` (stable since
ES2019): `lt y x` means the comparator orders `y` strictly before `x`. -/
def stableSort (lt : α → α → Bool) (l : List α) : List α :=
  l.foldr (orderedInsert lt) []

/-- Models `Number.prototype.toFixed(d)` on an exact rational: round to
`d` decimal places, ties away from zero. -/
def toFixed (d : Nat) (q : ℚ) : String :=
  let a : ℚ := |q|
  let scaled : Nat := (Int.floor (a * (10 : ℚ) ^ d + 1 / 2)).toNat
  let ip := scaled / 10 ^ d
  let fp := scaled % 10 ^ d
  let fpStr := toString fp
  let pad := String.mk (List.replicate (d - fpStr.length) '0')
  (if q < 0 ∧ scaled ≠ 0 then "-" else "") ++ toString ip ++
    (if d = 0 then "" else "." ++ pad ++ fpStr)

/-- Remove duplicates keeping the first occurrence of each element;
models `[...new Set(xs)]`. -/
def dedup [DecidableEq α] : List α → List α
  | [] => []
  | x :: t => if x ∈ dedup t then dedup t else x :: dedup t

end Js

/-- `[...new Set(xs)]` keeps first occurrences; `Js.dedup` above keeps
last ones, so use this order-preserving variant instead. -/
def jsSetDedup [DecidableEq α] (l : List α) : List α :=
  go l []
where
  go : List α → List α → List α
    | [], _ => []
    | x :: t, seen => if x ∈ seen then go t seen else x :: go t (x :: seen)

/-! ## Data model (src/types/index.ts, src/types/relationships.ts) -/

structure TextualFeatures where
  docstrings : List String
  comments : List String
  identifierNames : List String
  variableNames : List String
deriving DecidableEq

structure StructuralFeatures where
  astNodes : Nat
  complexity : Nat
  nestingDepth : Nat
  functionCount : Nat
  classCount : Nat
deriving DecidableEq

structure SemanticFeatures where
  embedding : List ℚ
  functionalSignature : String
  behaviorPattern : String
deriving DecidableEq

inductive ImportType
  | default | named | namespaced | dynamic
deriving DecidableEq

inductive ExportType
  | default | named | namespaced
deriving DecidableEq

inductive CallType
  | direct | method | constructorCall | async
deriving DecidableEq

/-- `'extends' | 'implements' | 'mixin'` (renamed: `extends` and
`implements` clash with Lean keywords). -/
inductive InheritanceKind
  | extendsRel | implementsRel | mixin
deriving DecidableEq

inductive DependencyKind
  | npm | localDep | builtin
deriving DecidableEq

/-- Source fields `from`/`to` are renamed `fromFile`/`toFile` (`from` and
`to` are Lean keywords). -/
structure ImportRelation where
  fromFile : String
  toFile : String
  symbols : List String
  importType : ImportType
  lineNumber : Option Nat
  statement : String
deriving DecidableEq

structure ExportRelation where
  fromFile : String
  symbol : String
  exportType : ExportType
  lineNumber : Option Nat
  statement : String
deriving DecidableEq

structure CallRelation where
  fromFile : String
  toFile : String
  object : Option String
  lineNumber : Option Nat
  callType : CallType
  context : String
deriving DecidableEq

structure InheritanceRelation where
  fromFile : String
  toFile : String
  type : InheritanceKind
  lineNumber : Option Nat
  interfaceName : Option String := none
deriving DecidableEq

structure DependencyRelation where
  fromFile : String
  toFile : String
  dependencyType : DependencyKind
  version : Option String := none
  usage : List String
deriving DecidableEq

inductive CompositionKind
  | hasA | uses | aggregates
deriving DecidableEq

structure CompositionRelation where
  fromFile : String
  toFile : String
  relationship : CompositionKind
  lineNumber : Option Nat := none
  fieldName : Option String := none
deriving DecidableEq

structure CodeRelationships where
  filePath : String
  imports : List ImportRelation
  exports : List ExportRelation
  functionCalls : List CallRelation
  classInheritance : List InheritanceRelation
  dependencies : List DependencyRelation
  compositions : List CompositionRelation
  lastAnalyzed : Nat
deriving DecidableEq

structure CodeRepresentation where
  filePath : String
  content : String
  textualFeatures : TextualFeatures
  structuralFeatures : StructuralFeatures
  semanticFeatures : SemanticFeatures
  relationships : Option CodeRelationships := none
  biasScore : ℚ
  augmentedEmbedding : List ℚ
  lastModified : Nat
deriving DecidableEq

/-! ## TextualBiasDetector (src/core/BiasDetector.ts) -/

namespace TextualBiasDetector

/-- `maskTextualFeatures`: empty the docstrings and comments, replace
every identifier by `'masked_id'` and every variable by `'var_x'`,
leaving every other field (in particular the structural features)
untouched. -/
def maskTextualFeatures (code : CodeRepresentation) : CodeRepresentation :=
  { code with
    textualFeatures :=
      { docstrings := []
        comments := []
        identifierNames := code.textualFeatures.identifierNames.map fun _ => "masked_id"
        variableNames := code.textualFeatures.variableNames.map fun _ => "var_x" } }

/-- `calculateStructuralSimilarity`: average of the four per-metric
similarities `1 − |a−b| / max(a, b, 1)`. -/
def calculateStructuralSimilarity (code1 code2 : CodeRepresentation) : ℚ :=
  let struct1 := code1.structuralFeatures
  let struct2 := code2.structuralFeatures
  let similarities : List ℚ :=
    [ 1 - |(struct1.complexity : ℚ) - struct2.complexity| /
        max (struct1.complexity : ℚ) (max (struct2.complexity : ℚ) 1),
      1 - |(struct1.nestingDepth : ℚ) - struct2.nestingDepth| /
        max (struct1.nestingDepth : ℚ) (max (struct2.nestingDepth : ℚ) 1),
      1 - |(struct1.functionCount : ℚ) - struct2.functionCount| /
        max (struct1.functionCount : ℚ) (max (struct2.functionCount : ℚ) 1),
      1 - |(struct1.classCount : ℚ) - struct2.classCount| /
        max (struct1.classCount : ℚ) (max (struct2.classCount : ℚ) 1) ]
  similarities.foldl (· + ·) 0 / (similarities.length : ℚ)

/-- `calculateBiasScore`: `1 − structuralSimilarity`, clamped to [0,1]. -/
def calculateBiasScore (original masked : CodeRepresentation) : ℚ :=
  let structuralSimilarity := calculateStructuralSimilarity original masked
  let biasScore := 1 - structuralSimilarity
  max 0 (min 1 biasScore)

/-- `detectBias` (the optional `query` parameter is unused). -/
def detectBias (code : CodeRepresentation) : ℚ :=
  calculateBiasScore code (maskTextualFeatures code)

end TextualBiasDetector

/-! ## SACLReranker score combination (src/core/SACLReranker.ts) -/

namespace SACLReranker

/-- The effective textual weight `0.2 × (1 − bias × 0.5)` from
`combineScores`. -/
def textualWeight (biasScore : ℚ) : ℚ := 0.2 * (1 - biasScore * 0.5)

/-- `combineScores`: weighted combination with bias-adjusted textual
weight, semantic weight 0.5, functional weight 0.3, normalised by the
sum of the weights. -/
def combineScores (textualSim semanticSim functionalSim biasScore : ℚ) : ℚ :=
  let semanticWeight : ℚ := 0.5
  let functionalWeight : ℚ := 0.3
  let normalizedWeights := textualWeight biasScore + semanticWeight + functionalWeight
  (textualSim * textualWeight biasScore + semanticSim * semanticWeight +
    functionalSim * functionalWeight) / normalizedWeights

end SACLReranker

/-! ## Node `path` module (POSIX behaviour, as used by CodeAnalyzer) -/

namespace NodePath

/-- `path.extname`: extension of the basename, empty for dotfiles and
names without a dot. -/
def extname (p : String) : String :=
  let base := ((Js.splitOnChar '/' p).getLastD "")
  match Js.lastIdxOf '.' base.data with
  | none => ""
  | some i => if i = 0 then "" else String.mk (base.data.drop i)

/-- `path.dirname` for paths without trailing slashes. -/
def dirname (p : String) : String :=
  match Js.lastIdxOf '/' p.data with
  | none => "."
  | some 0 => "/"
  | some i => String.mk (p.data.take i)

/-- Segment normalisation for `resolve`: drop empty and `.` segments,
let `..` pop the stack (and vanish at the root). -/
def normSegs : List String → List String → List String
  | [], acc => acc.reverse
  | s :: t, acc =>
    if s = "" ∨ s = "." then normSegs t acc
    else if s = ".." then
      match acc with
      | [] => normSegs t []
      | _ :: rest => normSegs t rest
    else normSegs t (s :: acc)

def joinSlash : List String → String
  | [] => ""
  | [s] => s
  | s :: t => s ++ "/" ++ joinSlash t

/-- `path.resolve(dir, rel)` for an absolute `dir` and a relative `rel`
(the only way `CodeAnalyzer.resolveImportPath` calls it; for a relative
`dir` Node would additionally prefix the process working directory). -/
def resolve (dir rel : String) : String :=
  "/" ++ joinSlash (normSegs (Js.splitOnChar '/' (dir ++ "/" ++ rel)) [])

end NodePath

/-! ## CodeAnalyzer (src/utils/CodeAnalyzer.ts) -/

namespace CodeAnalyzer

def jsExtensions : List String := [".js", ".jsx", ".ts", ".tsx"]

/-- A `\w`/identifier character: `[a-zA-Z0-9_]`. -/
def wordChar (c : Char) : Bool := c.isAlphanum || c == '_'

/-- `isKeyword`: language-keyword table keyed by extension (extensions
absent from the table contribute no keywords). -/
def isKeyword (identifier extension : String) : Bool :=
  let keywords : List (String × List String) :=
    [ (".js", ["var", "let", "const", "function", "if", "else", "for", "while",
        "return", "class", "import", "export"]),
      (".ts", ["var", "let", "const", "function", "if", "else", "for", "while",
        "return", "class", "import", "export", "interface", "type"]),
      (".py", ["def", "class", "if", "else", "for", "while", "return", "import",
        "from", "try", "except"]),
      (".java", ["public", "private", "class", "interface", "if", "else", "for",
        "while", "return", "import"]),
      (".cpp", ["int", "void", "class", "if", "else", "for", "while", "return",
        "include", "namespace"]) ]
  let langKeywords := (((keywords.find? fun kv => kv.1 == extension).map Prod.snd).getD [])
  langKeywords.contains (Js.toLower identifier)

/-- All matches of `\b[a-zA-Z_][a-zA-Z0-9_]*\b` in order: maximal
word-character runs whose first character is a letter or underscore. -/
def wordMatchesGo : Nat → List Char → List String
  | 0, _ => []
  | _, [] => []
  | fuel + 1, c :: t =>
    if wordChar c then
      let run := (c :: t).takeWhile wordChar
      let rest := (c :: t).drop run.length
      if c.isAlpha || c == '_' then String.mk run :: wordMatchesGo fuel rest
      else wordMatchesGo fuel rest
    else wordMatchesGo fuel t

def wordMatches (cs : List Char) : List String := wordMatchesGo (cs.length + 1) cs

/-- Python triple-quote delimiter, built from characters to keep the
source free of quote-heavy literals. -/
def tripleSingleQuote : String := String.mk ['\'', '\'', '\'']

/-- `extractTextualFeatures`: line comments (`//`, `#`), rough
multi-line comment markers, identifier names (regex matches of length
> 2 that are not keywords, first occurrences only) and variable names
(identifiers starting with a lowercase letter, not containing
`function` or `class`).  Docstrings are never populated. -/
def extractTextualFeatures (content extension : String) : TextualFeatures :=
  let lines := Js.splitOnChar '\n' content
  let comments := lines.foldl (fun acc line =>
    let trimmed := Js.trim line
    let acc :=
      if Js.startsWith trimmed "//" || Js.startsWith trimmed "#" then acc ++ [trimmed]
      else acc
    if Js.includes trimmed "/*" || Js.includes trimmed "\"\"\"" ||
        Js.includes trimmed tripleSingleQuote then acc ++ [trimmed]
    else acc) []
  let uniqueIdentifiers := jsSetDedup (wordMatches content.data)
  let identifierNames := uniqueIdentifiers.filter fun id =>
    decide (id.length > 2) && !(isKeyword id extension)
  let variableNames := identifierNames.filter fun id =>
    (match id.data with
     | c :: _ => c.isLower
     | [] => false) &&
    !(Js.includes id "function") && !(Js.includes id "class")
  { docstrings := []
    comments := comments
    identifierNames := identifierNames
    variableNames := variableNames }

/-! ### Structural features -/

/-- Babel AST node kinds relevant to `extractStructuralFeatures`'s
traversal counters; every other node is `otherNode`. -/
inductive StructKind
  | ifStmt | whileStmt | forStmt | switchCase | conditionalExpr | logicalExpr
  | functionDecl | functionExpr | arrowFunctionExpr | methodDefinition
  | classDecl | otherNode
deriving DecidableEq

mutual
/-- Shape of a parsed Babel AST, as consumed by the structural
traversal (kind plus children). -/
inductive StructAst
  | node (kind : StructKind) (children : StructAstList)
inductive StructAstList
  | nil
  | cons (head : StructAst) (tail : StructAstList)
end

def complexityKind : StructKind → Bool
  | .ifStmt | .whileStmt | .forStmt | .switchCase
  | .conditionalExpr | .logicalExpr => true
  | _ => false

def functionKind : StructKind → Bool
  | .functionDecl | .functionExpr | .arrowFunctionExpr | .methodDefinition => true
  | _ => false

mutual
/-- `features.astNodes++` on every `enter`. -/
def astNodes : StructAst → Nat
  | .node _ cs => 1 + astNodesList cs
def astNodesList : StructAstList → Nat
  | .nil => 0
  | .cons c t => astNodes c + astNodesList t
end

mutual
/-- Maximum value reached by `currentDepth` (incremented on enter,
decremented on exit); the root sits at depth 1. -/
def astMaxDepth : StructAst → Nat
  | .node _ cs => 1 + astMaxDepthList cs
def astMaxDepthList : StructAstList → Nat
  | .nil => 0
  | .cons c t => max (astMaxDepth c) (astMaxDepthList t)
end

mutual
def astCountKind (p : StructKind → Bool) : StructAst → Nat
  | .node k cs => (if p k then 1 else 0) + astCountKindList p cs
def astCountKindList (p : StructKind → Bool) : StructAstList → Nat
  | .nil => 0
  | .cons c t => astCountKind p c + astCountKindList p t
end

/-- Counters collected by the single AST traversal in
`extractStructuralFeatures` (successful-parse branch). -/
def astStructuralFeatures (ast : StructAst) : StructuralFeatures :=
  { astNodes := astNodes ast
    complexity := 1 + astCountKind complexityKind ast
    nestingDepth := astMaxDepth ast
    functionCount := astCountKind functionKind ast
    classCount := astCountKind (· == .classDecl) ast }

def heurComplexityKeywords : List String :=
  ["if", "while", "for", "switch", "case", "catch", "&&", "||", "?"]

def heurFunctionKeywords : List String :=
  ["def ", "function ", "func ", "public ", "private ", "protected "]

def heurClassKeywords : List String := ["class ", "interface ", "struct "]

/-- Per-line accumulator of `extractStructuralHeuristics`. -/
structure HeurAcc where
  complexity : Nat
  functionCount : Nat
  classCount : Nat
  maxIndent : Nat

/-- `extractStructuralHeuristics`: line-based fallback analysis
(complexity by keyword containment, functions by keyword start or
double-space containment, classes by keyword start, nesting by
half-indentation). -/
def extractStructuralHeuristics (content : String) : StructuralFeatures :=
  let lines := Js.splitOnChar '\n' content
  let r := lines.foldl (fun (acc : HeurAcc) line =>
    let trimmed := Js.trim line
    let indent := Js.leadingWs line
    let currentIndent := indent / 2
    { complexity := acc.complexity +
        (heurComplexityKeywords.filter fun kw => Js.includes trimmed kw).length
      functionCount := acc.functionCount +
        (heurFunctionKeywords.filter fun kw =>
          Js.startsWith trimmed kw || Js.includes trimmed (kw ++ " ")).length
      classCount := acc.classCount +
        (heurClassKeywords.filter fun kw => Js.startsWith trimmed kw).length
      maxIndent := max acc.maxIndent currentIndent })
    { complexity := 1, functionCount := 0, classCount := 0, maxIndent := 0 }
  { astNodes := lines.length * 2
    complexity := r.complexity
    nestingDepth := r.maxIndent
    functionCount := r.functionCount
    classCount := r.classCount }

/-- `extractStructuralFeatures`.  The source declares
`const features = …` and then *reassigns* `features` in both fallback
branches (the non-JS `else` branch and the `catch` handler).  TypeScript
rejects this assignment (TS2588), and under JavaScript runtime semantics
it throws `TypeError: Assignment to constant variable.`; the second
assignment sits inside the `catch` handler, so that throw escapes the
method.  Consequently only the JS/TS successful-parse path produces
features; both fallback paths raise. -/
def extractStructuralFeatures (parseS : String → Option StructAst)
    (content extension : String) : Except String StructuralFeatures :=
  if jsExtensions.contains extension then
    match parseS content with
    | some ast => .ok (astStructuralFeatures ast)
    | none => .error "TypeError: Assignment to constant variable."
  else .error "TypeError: Assignment to constant variable."

/-- The heuristic features the fallback branches *intend* to assign
(never reached because of the `const` reassignment above). -/
def intendedFallbackFeatures (content : String) : StructuralFeatures :=
  extractStructuralHeuristics content

/-! ### Relationship extraction -/

/-- Import specifiers of an `ImportDeclaration`; a named specifier whose
`imported` node is not an `Identifier` carries `none`. -/
inductive ImportSpec
  | defaultSpec (localName : String)
  | namedSpec (imported : Option String)
  | namespaceSpec (localName : String)
deriving DecidableEq

/-- Callee shape of a `CallExpression`. -/
inductive RelCallee
  | identCallee (name : String)
  | memberCallee (objName : Option String) (propName : Option String)
  | otherCallee
deriving DecidableEq

/-- A class `extends`/`implements` clause entry: an identifier or some
other expression. -/
inductive ClassRef
  | ident (name : String)
  | otherExpr
deriving DecidableEq

mutual
/-- Shape of a parsed Babel AST as consumed by
`extractJavaScriptRelationships`' visitors; nodes with no handler are
`otherNode`. -/
inductive RelAst
  | importDecl (source : String) (specs : List ImportSpec) (line : Nat)
  | exportNamedFunc (funcName : Option String) (line : Nat)
  | exportNamedVars (declIds : List (Option String)) (line : Nat)
  | exportNamedOther (line : Nat)
  | exportDefault (declName : Option String) (line : Nat)
  | classDecl (className : Option String) (superClass : Option ClassRef)
      (impls : List ClassRef) (line : Nat) (body : RelAstList)
  | callExpr (callee : RelCallee) (line : Nat) (children : RelAstList)
  | funcDecl (funcName : Option String) (body : RelAstList)
  | methodDef (keyName : Option String) (body : RelAstList)
  | otherNode (children : RelAstList)
inductive RelAstList
  | nil
  | cons (head : RelAst) (tail : RelAstList)
end

/-- Accumulator for the relationship lists; the source mutates the list
fields of a shared `CodeRelationships` object by `push` only, so the
remaining fields are attached once at the end. -/
structure RelationshipAcc where
  imports : List ImportRelation := []
  exports : List ExportRelation := []
  functionCalls : List CallRelation := []
  classInheritance : List InheritanceRelation := []
  dependencies : List DependencyRelation := []
deriving DecidableEq

/-- `resolveImportPath`: `./`- and `../`-prefixed specifiers resolve
against the importing file's directory; everything else is returned
verbatim. -/
def resolveImportPath (importPath currentFile : String) : String :=
  if Js.startsWith importPath "./" || Js.startsWith importPath "../" then
    NodePath.resolve (NodePath.dirname currentFile) importPath
  else importPath

/-- `content.split('\n')[lineNumber - 1] || ''`. -/
def statementAt (lines : List String) (line : Nat) : String :=
  lines.getD (line - 1) ""

/-- `findContainingFunction`: the source walks `path.parent` and then
`parent.parent`, but plain AST nodes have no `parent` field, so only the
immediate parent node is ever inspected. -/
def findContainingFunction (parent : Option RelAst) : Option String :=
  match parent with
  | some (.funcDecl (some name) _) => some name
  | some (.methodDef (some key) _) => some key
  | _ => none

/-- Symbol collection of the `ImportDeclaration` handler: default
specifiers set the type to `default`, namespace specifiers to
`namespace`; named specifiers leave it unchanged (initially `named`). -/
def foldImportSpecs (specs : List ImportSpec) : List String × ImportType :=
  specs.foldl (fun p spec =>
    match spec with
    | .defaultSpec localName => (p.1 ++ [localName], ImportType.default)
    | .namedSpec imported => (p.1 ++ [imported.getD "unknown"], p.2)
    | .namespaceSpec localName => (p.1 ++ [localName], ImportType.namespaced))
    ([], ImportType.named)

mutual
/-- Depth-first visitor of `extractJavaScriptRelationships` (handlers
fire on enter, then children are visited with the current node as
parent). -/
def visitRel (filePath : String) (lines : List String) (parent : Option RelAst)
    (n : RelAst) (acc : RelationshipAcc) : RelationshipAcc :=
  match n with
  | .importDecl source specs line =>
    let folded := foldImportSpecs specs
    { acc with imports := acc.imports ++
        [{ fromFile := filePath
           toFile := resolveImportPath source filePath
           symbols := folded.1
           importType := folded.2
           lineNumber := some line
           statement := statementAt lines line }] }
  | .exportNamedFunc funcName line =>
    match funcName with
    | some name =>
      { acc with exports := acc.exports ++
          [{ fromFile := filePath, symbol := name, exportType := .named
             lineNumber := some line, statement := statementAt lines line }] }
    | none => acc
  | .exportNamedVars declIds line =>
    declIds.foldl (fun acc declId =>
      match declId with
      | some name =>
        { acc with exports := acc.exports ++
            [{ fromFile := filePath, symbol := name, exportType := .named
               lineNumber := some line, statement := statementAt lines line }] }
      | none => acc) acc
  | .exportNamedOther _ => acc
  | .exportDefault declName line =>
    { acc with exports := acc.exports ++
        [{ fromFile := filePath, symbol := declName.getD "default"
           exportType := .default, lineNumber := some line
           statement := statementAt lines line }] }
  | .classDecl className superClass impls line body =>
    let acc :=
      match superClass, className with
      | some (.ident sup), some name =>
        { acc with classInheritance := acc.classInheritance ++
            [{ fromFile := name, toFile := sup, type := .extendsRel
               lineNumber := some line }] }
      | _, _ => acc
    let acc := impls.foldl (fun acc impl =>
      match impl, className with
      | .ident iname, some name =>
        { acc with classInheritance := acc.classInheritance ++
            [{ fromFile := name, toFile := iname, type := .implementsRel
               lineNumber := some line, interfaceName := some iname }] }
      | _, _ => acc) acc
    visitRelList filePath lines (some n) body acc
  | .callExpr callee line children =>
    let functionName :=
      match callee with
      | .identCallee name => name
      | .memberCallee _ propName => propName.getD ""
      | .otherCallee => ""
    let objectName :=
      match callee with
      | .memberCallee objName _ => objName.getD ""
      | _ => ""
    let acc :=
      if functionName ≠ "" then
        { acc with functionCalls := acc.functionCalls ++
            [{ fromFile := filePath
               toFile := functionName
               object := if objectName = "" then none else some objectName
               lineNumber := some line
               callType := .direct
               context := (findContainingFunction parent).getD "global" }] }
      else acc
    visitRelList filePath lines (some n) children acc
  | .funcDecl _ body => visitRelList filePath lines (some n) body acc
  | .methodDef _ body => visitRelList filePath lines (some n) body acc
  | .otherNode children => visitRelList filePath lines (some n) children acc
def visitRelList (filePath : String) (lines : List String)
    (parent : Option RelAst) (l : RelAstList) (acc : RelationshipAcc) :
    RelationshipAcc :=
  match l with
  | .nil => acc
  | .cons c t =>
    visitRelList filePath lines parent t (visitRel filePath lines parent c acc)
end

/-- `extractJavaScriptRelationships`: on parse failure the error is
caught and logged and the accumulated relationships are returned
unchanged. -/
def extractJavaScriptRelationships (parseR : String → Option RelAstList)
    (content filePath : String) (acc : RelationshipAcc) : RelationshipAcc :=
  let lines := Js.splitOnChar '\n' content
  match parseR content with
  | none => acc
  | some nodes => visitRelList filePath lines none nodes acc

end CodeAnalyzer

namespace CodeAnalyzer

/-! ### Regex models for the Python / generic extractors -/

/-- Models `\s+(<capture>+)` after a literal prefix, where the capture
class is `fun c => !(stop c)`: the whitespace run is consumed greedily,
then the capture needs at least one character; if everything after the
run is stopped, the engine backtracks one whitespace character into the
capture.  Returns the capture and the remainder after it. -/
def wsPlusCapture (rest : List Char) (stop : Char → Bool) :
    Option (List Char × List Char) :=
  let ws := rest.takeWhile Js.isWs
  if ws.isEmpty then none
  else
    let rem := rest.drop ws.length
    let cap := rem.takeWhile fun c => !(stop c)
    if !cap.isEmpty then some (cap, rem.drop cap.length)
    else if ws.length ≥ 2 then
      match ws.getLast? with
      | some c => if stop c then none else some ([c], rem)
      | none => none
    else none

/-- `^import\s+(.+)` (Python import). -/
def matchImportPy (line : String) : Option String :=
  let cs := line.data
  if Js.startsWithL "import".data cs then
    match wsPlusCapture (cs.drop 6) (fun _ => false) with
    | some (cap, _) => some (String.mk cap)
    | none => none
  else none

/-- `^from\s+([^\s]+)\s+import\s+(.+)` (Python from-import): returns
(module, capture). -/
def matchFromImportPy (line : String) : Option (String × String) :=
  let cs := line.data
  if Js.startsWithL "from".data cs then
    let rest := cs.drop 4
    let ws1 := rest.takeWhile Js.isWs
    if ws1.isEmpty then none
    else
      let r1 := rest.drop ws1.length
      let module := r1.takeWhile fun c => !(Js.isWs c)
      if module.isEmpty then none
      else
        let r2 := r1.drop module.length
        let ws2 := r2.takeWhile Js.isWs
        if ws2.isEmpty then none
        else
          let r3 := r2.drop ws2.length
          if Js.startsWithL "import".data r3 then
            match wsPlusCapture (r3.drop 6) (fun _ => false) with
            | some (cap, _) => some (String.mk module, String.mk cap)
            | none => none
          else none
  else none

/-- `^class\s+(\w+)\s*\(\s*([^)]+)\s*\):` (Python class with parents):
returns (class name, capture between the parentheses). -/
def matchClassPy (line : String) : Option (String × String) :=
  let cs := line.data
  if Js.startsWithL "class".data cs then
    let rest := cs.drop 5
    let ws1 := rest.takeWhile Js.isWs
    if ws1.isEmpty then none
    else
      let r1 := rest.drop ws1.length
      let name := r1.takeWhile wordChar
      if name.isEmpty then none
      else
        let r2 := (r1.drop name.length).dropWhile Js.isWs
        match r2 with
        | '(' :: r3 =>
          let inner := r3.takeWhile fun c => c ≠ ')'
          let afterParen := r3.drop inner.length
          match afterParen with
          | ')' :: ':' :: _ =>
            -- `\s*([^)]+)`: strip the leading whitespace unless the
            -- content is whitespace only, in which case the capture
            -- backtracks to the final whitespace character.
            let stripped := inner.dropWhile Js.isWs
            if !stripped.isEmpty then some (String.mk name, String.mk stripped)
            else
              match inner.getLast? with
              | some c => some (String.mk name, String.mk [c])
              | none => none
          | _ => none
        | _ => none
  else none

/-- `^def\s+(\w+)` (Python function definition). -/
def matchDefPy (line : String) : Option String :=
  let cs := line.data
  if Js.startsWithL "def".data cs then
    match wsPlusCapture (cs.drop 3) (fun c => !(wordChar c)) with
    | some (cap, _) => if cap.all wordChar then some (String.mk cap) else none
    | none => none
  else none

/-- All matches of the global regex `(\w+)\.(\w+)\(` in a line, left to
right, continuing after each match. -/
def callScan : Nat → List Char → List (String × String)
  | 0, _ => []
  | _, [] => []
  | fuel + 1, c :: t =>
    if wordChar c then
      let w1 := (c :: t).takeWhile wordChar
      match (c :: t).drop w1.length with
      | '.' :: r2 =>
        let w2 := r2.takeWhile wordChar
        if w2.isEmpty then callScan fuel t
        else
          match r2.drop w2.length with
          | '(' :: r4 => (String.mk w1, String.mk w2) :: callScan fuel r4
          | _ => callScan fuel t
      | _ => callScan fuel t
    else callScan fuel t

def pyCallMatches (line : String) : List (String × String) :=
  callScan (line.data.length + 1) line.data

/-- `findPythonFunction`: scan backwards from the current line for a
`def` line. -/
def findPythonFunction (lines : List String) (currentLine : Nat) : Option String :=
  go (currentLine + 1)
where
  go : Nat → Option String
    | 0 => none
    | i + 1 =>
      match matchDefPy (Js.trim (lines.getD i "")) with
      | some name => some name
      | none => go i

/-- One line of `extractPythonRelationships`. -/
def pythonLine (filePath : String) (lines : List String) (i : Nat)
    (acc : RelationshipAcc) : RelationshipAcc :=
  let line := Js.trim (lines.getD i "")
  let lineNumber := i + 1
  let acc :=
    match matchImportPy line with
    | some cap =>
      ((Js.splitOnChar ',' cap).map Js.trim).foldl (fun acc module =>
        { acc with imports := acc.imports ++
            [{ fromFile := filePath, toFile := module, symbols := [module]
               importType := .named, lineNumber := some lineNumber
               statement := line }] }) acc
    | none => acc
  let acc :=
    match matchFromImportPy line with
    | some (module, cap) =>
      { acc with imports := acc.imports ++
          [{ fromFile := filePath, toFile := module
             symbols := (Js.splitOnChar ',' cap).map Js.trim
             importType := .named, lineNumber := some lineNumber
             statement := line }] }
    | none => acc
  let acc :=
    match matchClassPy line with
    | some (className, cap) =>
      ((Js.splitOnChar ',' cap).map Js.trim).foldl (fun acc parent =>
        { acc with classInheritance := acc.classInheritance ++
            [{ fromFile := className, toFile := parent, type := .extendsRel
               lineNumber := some lineNumber }] }) acc
    | none => acc
  (pyCallMatches line).foldl (fun acc m =>
    { acc with functionCalls := acc.functionCalls ++
        [{ fromFile := filePath, toFile := m.2, object := some m.1
           lineNumber := some lineNumber, callType := .method
           context := (findPythonFunction lines i).getD "global" }] }) acc

/-- `extractPythonRelationships`. -/
def extractPythonRelationships (content filePath : String)
    (acc : RelationshipAcc) : RelationshipAcc :=
  let lines := Js.splitOnChar '\n' content
  (List.range lines.length).foldl (fun acc i => pythonLine filePath lines i acc) acc

/-- `^#include\s*[<"]([^>"]+)[>"]` (C/C++ include). -/
def matchInclude (line : String) : Option String :=
  let cs := line.data
  if Js.startsWithL "#include".data cs then
    let rest := (cs.drop 8).dropWhile Js.isWs
    match rest with
    | o :: r1 =>
      if o == '<' || o == '"' then
        let inner := r1.takeWhile fun c => c ≠ '>' && c ≠ '"'
        if inner.isEmpty then none
        else
          match r1.drop inner.length with
          | c :: _ => if c == '>' || c == '"' then some (String.mk inner) else none
          | [] => none
      else none
    | [] => none
  else none

/-- `^import\s+([^;]+);` (Java import). -/
def matchImportJava (line : String) : Option String :=
  let cs := line.data
  if Js.startsWithL "import".data cs then
    match wsPlusCapture (cs.drop 6) (fun c => c == ';') with
    | some (cap, rem) =>
      match rem with
      | ';' :: _ => some (String.mk cap)
      | _ => none
    | none => none
  else none

/-- `^using\s+([^;]+);` (C# using). -/
def matchUsingCs (line : String) : Option String :=
  let cs := line.data
  if Js.startsWithL "using".data cs then
    match wsPlusCapture (cs.drop 5) (fun c => c == ';') with
    | some (cap, rem) =>
      match rem with
      | ';' :: _ => some (String.mk cap)
      | _ => none
    | none => none
  else none

/-- Unanchored search: `class\s+(\w+)` followed by `mid` (itself
`\s*:\s*public\s+` or `\s+extends\s+`) and `(\w+)`.  The two generic
inheritance regexes share this driver. -/
def classSearchAt (cs : List Char) (cppStyle : Bool) : Option (String × String) :=
  if Js.startsWithL "class".data cs then
    let rest := cs.drop 5
    let ws1 := rest.takeWhile Js.isWs
    if ws1.isEmpty then none
    else
      let r1 := rest.drop ws1.length
      let name := r1.takeWhile wordChar
      if name.isEmpty then none
      else
        let r2 := r1.drop name.length
        let afterMid : Option (List Char) :=
          if cppStyle then
            -- `\s*:\s*public\s+`
            match (r2.dropWhile Js.isWs) with
            | ':' :: r3 =>
              let r4 := r3.dropWhile Js.isWs
              if Js.startsWithL "public".data r4 then
                let r5 := r4.drop 6
                let ws2 := r5.takeWhile Js.isWs
                if ws2.isEmpty then none else some (r5.drop ws2.length)
              else none
            | _ => none
          else
            -- `\s+extends\s+`
            let ws2 := r2.takeWhile Js.isWs
            if ws2.isEmpty then none
            else
              let r3 := r2.drop ws2.length
              if Js.startsWithL "extends".data r3 then
                let r4 := r3.drop 7
                let ws3 := r4.takeWhile Js.isWs
                if ws3.isEmpty then none else some (r4.drop ws3.length)
              else none
        match afterMid with
        | some r =>
          let parent := r.takeWhile wordChar
          if parent.isEmpty then none
          else some (String.mk name, String.mk parent)
        | none => none
  else none

def classSearch : Nat → List Char → Bool → Option (String × String)
  | 0, _, _ => none
  | _, [], _ => none
  | fuel + 1, c :: t, cppStyle =>
    match classSearchAt (c :: t) cppStyle with
    | some m => some m
    | none => classSearch fuel t cppStyle

/-- `/class\s+(\w+)\s*:\s*public\s+(\w+)/` (C++), first match anywhere. -/
def matchClassCpp (line : String) : Option (String × String) :=
  classSearch (line.data.length + 1) line.data true

/-- `/class\s+(\w+)\s+extends\s+(\w+)/` (Java), first match anywhere. -/
def matchClassJava (line : String) : Option (String × String) :=
  classSearch (line.data.length + 1) line.data false

/-- One line of `extractGenericRelationships`. -/
def genericLine (filePath : String) (lines : List String) (i : Nat)
    (acc : RelationshipAcc) : RelationshipAcc :=
  let line := Js.trim (lines.getD i "")
  let lineNumber := i + 1
  let importMatches := [matchInclude line, matchImportJava line, matchUsingCs line]
  let acc := importMatches.foldl (fun acc m =>
    match m with
    | some target =>
      { acc with dependencies := acc.dependencies ++
          [{ fromFile := filePath, toFile := target, dependencyType := .builtin
             usage := ["include"] }] }
    | none => acc) acc
  let inheritanceMatches := [matchClassCpp line, matchClassJava line]
  inheritanceMatches.foldl (fun acc m =>
    match m with
    | some (child, parent) =>
      { acc with classInheritance := acc.classInheritance ++
          [{ fromFile := child, toFile := parent, type := .extendsRel
             lineNumber := some lineNumber }] }
    | none => acc) acc

/-- `extractGenericRelationships`. -/
def extractGenericRelationships (content filePath : String)
    (acc : RelationshipAcc) : RelationshipAcc :=
  let lines := Js.splitOnChar '\n' content
  (List.range lines.length).foldl (fun acc i => genericLine filePath lines i acc) acc

/-- `extractRelationships`: dispatch on the extension; `lastAnalyzed`
records the construction time (`new Date()`). -/
def extractRelationships (parseR : String → Option RelAstList)
    (content filePath extension : String) (now : Nat) : CodeRelationships :=
  let acc : RelationshipAcc := {}
  let acc :=
    if jsExtensions.contains extension then
      extractJavaScriptRelationships parseR content filePath acc
    else if extension == ".py" then
      extractPythonRelationships content filePath acc
    else
      extractGenericRelationships content filePath acc
  { filePath := filePath
    imports := acc.imports
    exports := acc.exports
    functionCalls := acc.functionCalls
    classInheritance := acc.classInheritance
    dependencies := acc.dependencies
    compositions := []
    lastAnalyzed := now }

/-- `analyzeFile`: `readResult` is the outcome of `readFile` (`none`
models a read failure).  Any exception — including the `TypeError`
raised by `extractStructuralFeatures`' `const` reassignment — is caught
and `null` is returned. -/
def analyzeFile (parseR : String → Option RelAstList)
    (parseS : String → Option StructAst) (now : Nat) (filePath : String)
    (readResult : Option String) : Option CodeRepresentation :=
  match readResult with
  | none => none
  | some content =>
    let extension := NodePath.extname filePath
    let textualFeatures := extractTextualFeatures content extension
    match extractStructuralFeatures parseS content extension with
    | .error _ => none
    | .ok structuralFeatures =>
      let relationships := extractRelationships parseR content filePath extension now
      some
        { filePath := filePath
          content := content
          textualFeatures := textualFeatures
          structuralFeatures := structuralFeatures
          semanticFeatures :=
            { embedding := [], functionalSignature := "", behaviorPattern := "" }
          relationships := some relationships
          biasScore := 0
          augmentedEmbedding := []
          lastModified := now }

end CodeAnalyzer

/-! ## Relationship graph types (src/types/relationships.ts) -/

/-- `'imports' | 'exports' | 'calls' | 'extends' | 'implements' | 'uses'
| 'depends_on' | 'composes' | 'aggregates' | 'provides_service' |
'consumes_service'` (`extends`/`implements` renamed for Lean). -/
inductive RelationshipType
  | imports | exports | calls | extendsRel | implementsRel | uses
  | depends_on | composes | aggregates | provides_service | consumes_service
deriving DecidableEq

/-- `DEFAULT_RELATIONSHIP_WEIGHTS`: the seven keys present in the source
object; the other relationship types are absent (`undefined`), modelled
as `none`. -/
def DEFAULT_RELATIONSHIP_WEIGHTS : RelationshipType → Option ℚ
  | .imports => some 1.0
  | .exports => some 0.8
  | .calls => some 0.9
  | .extendsRel => some 0.95
  | .implementsRel => some 0.9
  | .uses => some 0.7
  | .depends_on => some 0.6
  | _ => none

inductive ComponentType
  | file | classComp | functionComp | interfaceComp | moduleComp
deriving DecidableEq

structure RelatedComponent where
  filePath : String
  componentName : String
  componentType : ComponentType
  relationshipType : RelationshipType
  relationshipDescription : String
  relevanceScore : ℚ
  distance : Nat
  snippet : Option String := none
deriving DecidableEq

structure GraphNodeMeta where
  biasScore : Option ℚ := none
  complexity : Option ℚ := none
  size : Option ℚ := none
deriving DecidableEq

structure GraphNode where
  id : String
  label : String
  type : ComponentType
  metadata : GraphNodeMeta
deriving DecidableEq

structure GraphEdgeMeta where
  lineNumber : Option Nat := none
  symbols : Option (List String) := none
  bidirectional : Option Bool := none
deriving DecidableEq

/-- Source fields `from`/`to` renamed `fromNode`/`toNode`. -/
structure GraphEdge where
  fromNode : String
  toNode : String
  type : RelationshipType
  weight : ℚ
  label : String
  metadata : GraphEdgeMeta
deriving DecidableEq

structure RelationshipGraph where
  nodes : List GraphNode
  edges : List GraphEdge
  primaryNode : String
  maxDepth : Nat
deriving DecidableEq

structure RelationshipTraversalConfig where
  maxDepth : Nat
  relationshipTypes : List RelationshipType
  minRelevanceScore : ℚ
  includeReverse : Bool
  weightings : RelationshipType → Option ℚ

/-- A `Partial<RelationshipTraversalConfig>` as accepted by
`getRelatedComponents`. -/
structure PartialTraversalConfig where
  maxDepth : Option Nat := none
  relationshipTypes : Option (List RelationshipType) := none
  minRelevanceScore : Option ℚ := none
  includeReverse : Option Bool := none
  weightings : Option (RelationshipType → Option ℚ) := none

/-- `Math.max(...l)` over a possibly-empty list; `none` stands for the
`-Infinity` an empty spread produces. -/
def jsMaxOfList (l : List Nat) : Option Nat :=
  match l with
  | [] => none
  | x :: t => some (t.foldl max x)

structure TraversalStats where
  nodesVisited : Nat
  edgesTraversed : Nat
  maxDepthReached : Option Nat
  processingTime : Nat
deriving DecidableEq

structure GraphTraversalResult where
  startNode : String
  relatedComponents : List RelatedComponent
  relationshipGraph : RelationshipGraph
  traversalStats : TraversalStats
deriving DecidableEq

/-- `s.split('/').pop() || fallback` (`pop` of a split array always
yields a string; the empty string is falsy). -/
def jsPopOr (s fallback : String) : String :=
  let last := (Js.splitOnChar '/' s).getLastD ""
  if last = "" then fallback else last

/-! ## GraphitiClient (src/graphiti/GraphitiClient.ts)

The live client is a mock: `storeCodeRepresentation`,
`storeRelationship` and `deleteFileRelationships` only log (the real
Graphiti calls are commented out), `searchCode` returns synthetic
results and `getRelatedComponents` returns name-derived synthetic
components.  The `rand` parameter models the `Math.random()` stream and
`now` the `new Date()` timestamps. -/

/-- Source field `namespace` renamed `nameSpace` (Lean keyword). -/
structure GraphitiConfig where
  nameSpace : String
  neo4jUri : String
  neo4jUser : String
  neo4jPassword : String
  openaiApiKey : String
deriving DecidableEq

structure RelationshipDetails where
  symbols : Option (List String) := none
  lineNumber : Option Nat := none
  statement : Option String := none
  weight : Option ℚ := none
deriving DecidableEq

namespace GraphitiClient

/-- `Array(384).fill(0).map(() => Math.random() - 0.5)`; the stream is
indexed from `off`. -/
def mockEmbedding (rand : Nat → ℚ) (off : Nat) : List ℚ :=
  (List.range 384).map fun j => rand (off + j) - 0.5

/-- `createMockSearchResults`: `min(limit, 5)` synthetic representations
named `src/example1.py` … `src/example5.py`. -/
def createMockSearchResults (rand : Nat → ℚ) (now : Nat) (query : String)
    (limit : Nat) : List CodeRepresentation :=
  (List.range (min limit 5)).map fun i =>
    { filePath := "src/example" ++ toString (i + 1) ++ ".py"
      content := "def example_function_" ++ toString (i + 1) ++
        "():\n    # Mock implementation for " ++ query ++ "\n    return \"result\""
      textualFeatures :=
        { docstrings := ["Function for " ++ query]
          comments := ["Implementation of " ++ query]
          identifierNames := ["example_function_" ++ toString (i + 1), "result"]
          variableNames := ["result"] }
      structuralFeatures :=
        { astNodes := 15 + i * 3, complexity := 2 + i, nestingDepth := 1
          functionCount := 1, classCount := 0 }
      semanticFeatures :=
        { embedding := mockEmbedding rand (i * 768)
          functionalSignature := "Processes " ++ query ++ " and returns result"
          behaviorPattern := "Linear processing with " ++ query ++ " operation" }
      biasScore := 0.3 + (i : ℚ) * 0.1
      augmentedEmbedding := mockEmbedding rand (i * 768 + 384)
      lastModified := now }

/-- `searchCode`: logs, then returns the mock results (the real search
is commented out); nothing else is consulted. -/
def searchCode (_config : GraphitiConfig) (rand : Nat → ℚ) (now : Nat)
    (query : String) (limit : Nat) : List CodeRepresentation :=
  createMockSearchResults rand now query limit

/-- `storeCodeRepresentation`: only logs; no state is written. -/
def storeCodeRepresentation (_config : GraphitiConfig)
    (_code : CodeRepresentation) : Unit := ()

/-- `storeRelationship`: only logs; no edge is written. -/
def storeRelationship (_config : GraphitiConfig) (_fromFile _toFile : String)
    (_type : RelationshipType) (_details : RelationshipDetails) : Unit := ()

/-- `deleteFileRelationships`: only logs; nothing is removed. -/
def deleteFileRelationships (_config : GraphitiConfig) (_filePath : String) :
    Unit := ()

/-- The `defaultConfig` inside `getRelatedComponents`. -/
def defaultTraversalConfig : RelationshipTraversalConfig :=
  { maxDepth := 3
    relationshipTypes := [.imports, .exports, .calls, .extendsRel, .implementsRel]
    minRelevanceScore := 0.3
    includeReverse := true
    weightings := DEFAULT_RELATIONSHIP_WEIGHTS }

/-- `{ ...defaultConfig, ...config }`. -/
def mergeTraversalConfig (p : PartialTraversalConfig) : RelationshipTraversalConfig :=
  { maxDepth := p.maxDepth.getD defaultTraversalConfig.maxDepth
    relationshipTypes :=
      p.relationshipTypes.getD defaultTraversalConfig.relationshipTypes
    minRelevanceScore :=
      p.minRelevanceScore.getD defaultTraversalConfig.minRelevanceScore
    includeReverse := p.includeReverse.getD defaultTraversalConfig.includeReverse
    weightings := p.weightings.getD defaultTraversalConfig.weightings }

/-- `createMockRelatedComponents`: components derived from the file
*name* only — a Controller counterpart when the name contains
`Service`, a Service counterpart when it contains `Controller`, and
always a `.test` counterpart — each at distance 1 with a fixed score,
then filtered by `minRelevanceScore`/`maxDepth` and capped at 5.  The
requested relationship types and any stored edges are ignored. -/
def createMockRelatedComponents (filePath : String)
    (config : RelationshipTraversalConfig) : List RelatedComponent :=
  let fileName := (Js.splitOnChar '/' filePath).getLastD ""
  let mockComponents : List RelatedComponent :=
    (if Js.includes fileName "Service" then
      [{ filePath := Js.replaceFirst filePath "Service" "Controller"
         componentName := Js.replaceFirst fileName "Service" "Controller"
         componentType := .file
         relationshipType := .calls
         relationshipDescription := "Controller uses this service"
         relevanceScore := 0.9
         distance := 1
         snippet := some
           "class Controller \x7b constructor(private service: Service) \x7b\x7d \x7d" }]
     else []) ++
    (if Js.includes fileName "Controller" then
      [{ filePath := Js.replaceFirst filePath "Controller" "Service"
         componentName := Js.replaceFirst fileName "Controller" "Service"
         componentType := .file
         relationshipType := .imports
         relationshipDescription := "Service imported by controller"
         relevanceScore := 0.95
         distance := 1
         snippet := some "import \x7b Service \x7d from \"./Service\";" }]
     else []) ++
    [{ filePath := Js.replaceExtWithTest filePath
       componentName := Js.replaceExtWithTest fileName
       componentType := .file
       relationshipType := .depends_on
       relationshipDescription := "Test file for this component"
       relevanceScore := 0.7
       distance := 1 }]
  (mockComponents.filter fun comp =>
    decide (config.minRelevanceScore ≤ comp.relevanceScore) &&
    decide (comp.distance ≤ config.maxDepth)).take 5

/-- `getRelatedComponents`: merge the caller's partial config with the
defaults, then return the mock components. -/
def getRelatedComponents (_config : GraphitiConfig) (filePath : String)
    (pcfg : PartialTraversalConfig) : List RelatedComponent :=
  createMockRelatedComponents filePath (mergeTraversalConfig pcfg)

/-- `traverseRelationships`: delegates to `getRelatedComponents`
(passing only `maxDepth` and `relationshipTypes`), then wraps the mock
components in a star-shaped graph rooted at `startFile`; `t0`/`t1` are
the `Date.now()` readings around the call. -/
def traverseRelationships (config : GraphitiConfig) (startFile : String)
    (relationshipTypes : List RelationshipType) (maxDepth : Nat)
    (t0 t1 : Nat) : GraphTraversalResult :=
  let relatedComponents := getRelatedComponents config startFile
    { maxDepth := some maxDepth, relationshipTypes := some relationshipTypes }
  let relationshipGraph : RelationshipGraph :=
    { nodes :=
        { id := startFile, label := jsPopOr startFile startFile, type := .file
          metadata := { complexity := some 5 } } ::
        relatedComponents.map fun comp =>
          { id := comp.filePath, label := comp.componentName
            type := comp.componentType, metadata := { biasScore := some 0.4 } }
      edges := relatedComponents.map fun comp =>
        { fromNode := startFile, toNode := comp.filePath
          type := comp.relationshipType, weight := comp.relevanceScore
          label := comp.relationshipDescription
          metadata := { bidirectional := some false } }
      primaryNode := startFile
      maxDepth := maxDepth }
  { startNode := startFile
    relatedComponents := relatedComponents
    relationshipGraph := relationshipGraph
    traversalStats :=
      { nodesVisited := relatedComponents.length + 1
        edgesTraversed := relatedComponents.length
        maxDepthReached := jsMaxOfList (relatedComponents.map (·.distance))
        processingTime := t1 - t0 } }

end GraphitiClient

/-! ## SACLReranker: similarity scorers, localizer, rerank pipeline -/

structure CodeRegion where
  startLine : Nat
  endLine : Nat
  relevanceScore : ℚ
  snippet : String
deriving DecidableEq

structure RetrievalResult where
  codeSnippet : CodeRepresentation
  originalScore : ℚ
  semanticScore : ℚ
  biasAdjustedScore : ℚ
  localizationRegions : List CodeRegion
  explanation : String
deriving DecidableEq

inductive Importance
  | high | medium | low
deriving DecidableEq

structure KeyRelationship where
  type : RelationshipType
  description : String
  importance : Importance
deriving DecidableEq

structure ContextExplanation where
  primaryFile : String
  contextSummary : String
  keyRelationships : List KeyRelationship
  dependencyChain : List String
  suggestedFiles : List String
deriving DecidableEq

structure EnhancedRetrievalResult extends RetrievalResult where
  relatedComponents : List RelatedComponent
  relationshipGraph : RelationshipGraph
  contextExplanation : ContextExplanation
  dependencyChain : List String
deriving DecidableEq

namespace SACLReranker

/-- `Array.prototype.join(sep)`. -/
def joinWith (sep : String) : List String → String
  | [] => ""
  | [s] => s
  | s :: t => s ++ sep ++ joinWith sep t

/-- `calculateTextualSimilarity`: fraction of lower-cased query tokens
contained in the joined docstrings, comments, identifiers and content. -/
def calculateTextualSimilarity (code : CodeRepresentation) (query : String) : ℚ :=
  let queryTokens := Js.splitWs (Js.toLower query)
  let codeText := Js.toLower (joinWith " "
    (code.textualFeatures.docstrings ++ code.textualFeatures.comments ++
     code.textualFeatures.identifierNames ++ [code.content]))
  let matchCount := (queryTokens.filter fun token => Js.includes codeText token).length
  (matchCount : ℚ) / (queryTokens.length : ℚ)

/-- `SemanticSimilarityCalculator.findSemanticRelated`: curated synonym
pairs. -/
def findSemanticRelated (token : String) (content : String) : Bool :=
  let relationships : List (String × List String) :=
    [ ("sort", ["order", "arrange", "sequence"]),
      ("search", ["find", "locate", "query", "filter"]),
      ("transform", ["convert", "change", "modify", "map"]),
      ("iterate", ["loop", "traverse", "process", "each"]),
      ("validate", ["check", "verify", "ensure", "test"]) ]
  relationships.any fun kv =>
    (token == kv.1 && kv.2.any fun syn => Js.includes content syn) ||
    (kv.2.contains token && Js.includes content kv.1)

/-- `SemanticSimilarityCalculator.calculate`: token matches against the
functional signature / behaviour pattern, boosted by 1.2 and clamped
at 1. -/
def semanticCalculate (code : CodeRepresentation) (query : String) : ℚ :=
  let queryTokens := Js.splitWs (Js.toLower query)
  let semanticContent := Js.toLower (joinWith " "
    [code.semanticFeatures.functionalSignature, code.semanticFeatures.behaviorPattern])
  let semanticMatches := (queryTokens.filter fun token =>
    Js.includes semanticContent token || findSemanticRelated token semanticContent).length
  min 1 ((semanticMatches : ℚ) / (queryTokens.length : ℚ) * 1.2)

/-- `FunctionalRelevanceScorer.estimateQueryComplexity`: keyword-derived
average on a 1–6 scale (unknown tokens score 3). -/
def estimateQueryComplexity (query : String) : ℚ :=
  let complexityKeywords : List (String × ℚ) :=
    [ ("simple", 1), ("basic", 1), ("easy", 1),
      ("complex", 5), ("advanced", 5), ("sophisticated", 5),
      ("algorithm", 4), ("optimize", 4), ("efficient", 4),
      ("recursive", 6), ("dynamic", 5), ("parallel", 6) ]
  let tokens := Js.splitWs (Js.toLower query)
  let scores := tokens.map fun token =>
    (((complexityKeywords.find? fun kv => kv.1 == token).map Prod.snd).getD 3)
  scores.foldl (· + ·) 0 / (scores.length : ℚ)

/-- `FunctionalRelevanceScorer.scoreBehaviorAlignment`. -/
def scoreBehaviorAlignment (query behaviorPattern : String) : ℚ :=
  let queryLower := Js.toLower query
  let patternLower := Js.toLower behaviorPattern
  if Js.includes patternLower queryLower || Js.includes queryLower patternLower then 1
  else
    let behaviorKeywords : List String :=
      ["iteration", "recursion", "filtering", "mapping", "sorting",
       "searching", "optimization", "validation", "transformation"]
    let queryBehaviors := behaviorKeywords.filter fun kw => Js.includes queryLower kw
    let patternBehaviors := behaviorKeywords.filter fun kw => Js.includes patternLower kw
    let overlap := (queryBehaviors.filter fun qb => patternBehaviors.contains qb).length
    let total := max queryBehaviors.length (max patternBehaviors.length 1)
    (overlap : ℚ) / (total : ℚ)

/-- `FunctionalRelevanceScorer.score`: 0.4 · complexity alignment +
0.6 · behaviour alignment. -/
def functionalScore (code : CodeRepresentation) (query : String) : ℚ :=
  let queryComplexity := estimateQueryComplexity query
  let codeComplexity := (code.structuralFeatures.complexity : ℚ)
  let complexityScore := 1 - |queryComplexity - codeComplexity| /
    max queryComplexity (max codeComplexity 1)
  let behaviorScore := scoreBehaviorAlignment query code.semanticFeatures.behaviorPattern
  complexityScore * 0.4 + behaviorScore * 0.6

/-- `/^\s*(def|function|class|async|public|private)\s+/`. -/
def matchesDefLine (line : String) : Bool :=
  let rest := line.data.dropWhile Js.isWs
  ["def", "function", "class", "async", "public", "private"].any fun kw =>
    Js.startsWithL kw.data rest &&
    (match rest.drop kw.length with
     | c :: _ => Js.isWs c
     | [] => false)

/-- `CodeLocalizer.findBlockEnd`: first subsequent non-blank line whose
indentation is at most the definition's, minus one. -/
def findBlockEnd (lines : List String) (startLine : Nat) : Nat :=
  let startIndent := Js.leadingWs (lines.getD startLine "")
  go (lines.drop (startLine + 1)) (startLine + 1) startIndent
where
  go : List String → Nat → Nat → Nat
    | [], _, _ => lines.length - 1
    | l :: ls, i, startIndent =>
      let line := Js.trim l
      if line == "" then go ls (i + 1) startIndent
      else
        let indent := Js.leadingWs l
        if indent ≤ startIndent && line.length > 0 then i - 1
        else go ls (i + 1) startIndent

/-- `CodeLocalizer.scoreRelevance`. -/
def scoreRelevance (snippet query : String) : ℚ :=
  let queryTokens := Js.splitWs (Js.toLower query)
  let snippetLower := Js.toLower snippet
  ((queryTokens.filter fun token => Js.includes snippetLower token).length : ℚ) /
    (queryTokens.length : ℚ)

/-- `snippet.slice(0, 200) + (snippet.length > 200 ? '...' : '')`. -/
def truncateSnippet (snippet : String) : String :=
  String.mk (snippet.data.take 200) ++
    (if snippet.data.length > 200 then "..." else "")

/-- `CodeLocalizer.localize`: collect definition blocks scoring above
0.3, sort descending by score, keep the top 3. -/
def localize (code : CodeRepresentation) (query : String) : List CodeRegion :=
  let lines := Js.splitOnChar '\n' code.content
  let regions := (List.range lines.length).foldl (fun regions i =>
    let line := lines.getD i ""
    if matchesDefLine line then
      let endLine := findBlockEnd lines i
      let snippet := joinWith "\n" ((lines.drop i).take (endLine + 1 - i))
      let relevanceScore := scoreRelevance snippet query
      if (0.3 : ℚ) < relevanceScore then
        regions ++ [{ startLine := i + 1, endLine := endLine + 1
                      relevanceScore := relevanceScore
                      snippet := truncateSnippet snippet }]
      else regions
    else regions) []
  (Js.stableSort (fun y x => decide (x.relevanceScore < y.relevanceScore)) regions).take 3

/-- `generateRankingExplanation` (template text copied byte-for-byte
from the source, including its mangled bullet characters). -/
def generateRankingExplanation (code : CodeRepresentation) (query : String)
    (textualSim semanticSim functionalSim finalScore : ℚ) : String :=
  let biasLevel :=
    if code.biasScore > 0.7 then "High"
    else if code.biasScore > 0.4 then "Medium" else "Low"
  "SACL Ranking Analysis:\nâ€¢ Query: \"" ++ query ++
    "\"\nâ€¢ Textual Similarity: " ++ Js.toFixed 1 (textualSim * 100) ++
    "%\nâ€¢ Semantic Similarity: " ++ Js.toFixed 1 (semanticSim * 100) ++
    "%\nâ€¢ Functional Relevance: " ++ Js.toFixed 1 (functionalSim * 100) ++
    "%\nâ€¢ Bias Level: " ++ biasLevel ++ " (" ++ Js.toFixed 1 (code.biasScore * 100) ++
    "%)\nâ€¢ Final Score: " ++ Js.toFixed 1 (finalScore * 100) ++
    "%\nâ€¢ Bias Adjustment: " ++
    (if code.biasScore > 0.4 then "Applied - reduced textual weight" else "Minimal") ++
    "\nâ€¢ Key Features: " ++ code.semanticFeatures.behaviorPattern

/-- Scoring of one candidate, shared by `rerank` and
`rerankWithContext`. -/
def scoreResult (result : CodeRepresentation) (query : String) : RetrievalResult :=
  let textualSim := calculateTextualSimilarity result query
  let semanticSim := semanticCalculate result query
  let functionalSim := functionalScore result query
  let finalScore := combineScores textualSim semanticSim functionalSim result.biasScore
  { codeSnippet := result
    originalScore := textualSim
    semanticScore := semanticSim
    biasAdjustedScore := finalScore
    localizationRegions := localize result query
    explanation :=
      generateRankingExplanation result query textualSim semanticSim functionalSim
        finalScore }

/-- `rerank`: score every candidate, sort descending by bias-adjusted
score, truncate to `topK`. -/
def rerank (initialResults : List CodeRepresentation) (query : String)
    (topK : Nat) : List RetrievalResult :=
  let scoredResults := initialResults.map fun result => scoreResult result query
  (Js.stableSort (fun y x => decide (x.biasAdjustedScore < y.biasAdjustedScore))
    scoredResults).take topK

/-- `createRelationshipGraph` (reranker variant, capped at 5
components; `maxDepth = Math.max(...distances, 1)`). -/
def createRelationshipGraph (filePath : String)
    (relatedComponents : List RelatedComponent) : RelationshipGraph :=
  { nodes :=
      { id := filePath, label := jsPopOr filePath filePath, type := .file
        metadata := { complexity := some 5 } } ::
      (relatedComponents.take 5).map fun comp =>
        { id := comp.filePath, label := comp.componentName
          type := comp.componentType, metadata := { biasScore := some 0.4 } }
    edges := (relatedComponents.take 5).map fun comp =>
      { fromNode := filePath, toNode := comp.filePath
        type := comp.relationshipType, weight := comp.relevanceScore
        label := comp.relationshipDescription
        metadata := { bidirectional := some false } }
    primaryNode := filePath
    maxDepth := (relatedComponents.map (·.distance)).foldl max 1 }

/-- `buildDependencyChain`: the file followed by its top-3
import/depends_on targets by relevance. -/
def buildDependencyChain (filePath : String)
    (relatedComponents : List RelatedComponent) : List String :=
  let dependencies :=
    ((Js.stableSort (fun y x => decide (x.relevanceScore < y.relevanceScore))
        (relatedComponents.filter fun c =>
          [RelationshipType.imports, RelationshipType.depends_on].contains
            c.relationshipType)).take 3).map (·.filePath)
  filePath :: dependencies

/-- `buildContextSummary`. -/
def buildContextSummary (code : CodeRepresentation)
    (relatedComponents : List RelatedComponent) (query : String) : String :=
  if relatedComponents.isEmpty then
    code.filePath ++ " is a standalone component with no significant relationships detected."
  else
    let importCount := (relatedComponents.filter fun c =>
      c.relationshipType == .imports).length
    let callCount := (relatedComponents.filter fun c =>
      c.relationshipType == .calls).length
    let inheritanceCount := (relatedComponents.filter fun c =>
      [RelationshipType.extendsRel, RelationshipType.implementsRel].contains
        c.relationshipType).length
    code.filePath ++ " has " ++ toString relatedComponents.length ++
      " related components including " ++ toString importCount ++ " imports, " ++
      toString callCount ++ " function calls, and " ++ toString inheritanceCount ++
      " inheritance relationships. Most relevant for \"" ++ query ++ "\": " ++
      ((relatedComponents.head?.map (·.relationshipDescription)).getD "none") ++ "."

/-- `generateContextExplanation`. -/
def generateContextExplanation (code : CodeRepresentation)
    (relatedComponents : List RelatedComponent) (query : String) :
    ContextExplanation :=
  let topRelated := relatedComponents.take 3
  let keyRelationships := topRelated.map fun comp =>
    { type := comp.relationshipType
      description := comp.relationshipDescription
      importance :=
        if comp.relevanceScore > 0.8 then Importance.high
        else if comp.relevanceScore > 0.5 then Importance.medium
        else Importance.low }
  { primaryFile := code.filePath
    contextSummary := buildContextSummary code topRelated query
    keyRelationships := keyRelationships
    dependencyChain := buildDependencyChain code.filePath relatedComponents
    suggestedFiles := topRelated.map (·.filePath) }

/-- `generateEnhancedExplanation` (template text copied byte-for-byte,
including its mangled emoji bytes). -/
def generateEnhancedExplanation (code : CodeRepresentation) (query : String)
    (textualSim semanticSim functionalSim finalScore : ℚ)
    (relatedComponents : List RelatedComponent) : String :=
  let basicExplanation := generateRankingExplanation code query textualSim
    semanticSim functionalSim finalScore
  let contextInfo :=
    if relatedComponents.length > 0 then
      "\n\nðŸ”— Relationship Context:\nâ€¢ Related Components: " ++
        toString relatedComponents.length ++ "\nâ€¢ Key Relationships: " ++
        joinWith ", " ((relatedComponents.take 3).map (·.relationshipDescription)) ++
        "\nâ€¢ Context Relevance: " ++
        (if relatedComponents.length > 0 then "High" else "Low")
    else "\n\nðŸ”— No relationship context available"
  basicExplanation ++ contextInfo

/-- `rerankWithContext` (the processor always constructs the reranker
with a GraphitiClient, so the no-client fallback path is not taken). -/
def rerankWithContext (gconfig : GraphitiConfig)
    (initialResults : List CodeRepresentation) (query : String) (topK : Nat) :
    List EnhancedRetrievalResult :=
  let enhancedResults := initialResults.map fun result =>
    let base := scoreResult result query
    let relatedComponents := GraphitiClient.getRelatedComponents gconfig
      result.filePath { maxDepth := some 2 }
    let relationshipGraph := createRelationshipGraph result.filePath relatedComponents
    let contextExplanation := generateContextExplanation result relatedComponents query
    let explanation := generateEnhancedExplanation result query base.originalScore
      base.semanticScore (functionalScore result query) base.biasAdjustedScore
      relatedComponents
    { base with
      explanation := explanation
      relatedComponents := relatedComponents
      relationshipGraph := relationshipGraph
      contextExplanation := contextExplanation
      dependencyChain := buildDependencyChain result.filePath relatedComponents }
  (Js.stableSort (fun y x => decide (x.biasAdjustedScore < y.biasAdjustedScore))
    enhancedResults).take topK

end SACLReranker

/-! ## SACLProcessor (src/core/SACLProcessor.ts) -/

/-- Source field `namespace` renamed `nameSpace` (Lean keyword). -/
structure SACLConfig where
  repositoryPath : String
  nameSpace : String
  llmModel : String
  embeddingModel : String
  biasThreshold : ℚ
  maxResults : Nat
  cacheEnabled : Bool
deriving DecidableEq

inductive ChangeType
  | created | modified | deleted
deriving DecidableEq

structure UpdateResult where
  success : Bool
  message : String
deriving DecidableEq

/-- The processor's only mutable state: the in-memory cache `Map`
(the mock Graphiti client stores nothing). -/
structure ProcessorState where
  cache : List (String × CodeRepresentation)
deriving DecidableEq

namespace SACLProcessor

/-- `Map.set`: replace in place or append. -/
def cacheSet (cache : List (String × CodeRepresentation)) (key : String)
    (value : CodeRepresentation) : List (String × CodeRepresentation) :=
  match cache with
  | [] => [(key, value)]
  | (k, v) :: t => if k == key then (k, value) :: t else (k, v) :: cacheSet t key value

/-- `Map.delete`. -/
def cacheDelete (cache : List (String × CodeRepresentation)) (key : String) :
    List (String × CodeRepresentation) :=
  match cache with
  | [] => []
  | (k, v) :: t => if k == key then t else (k, v) :: cacheDelete t key

/-- `s.replace(/\\/g, '/')`. -/
def backslashToSlash (s : String) : String :=
  String.mk (s.data.map fun c => if c == '\\' then '/' else c)

/-- `validateFilePath`: accept when the normalised path starts with the
repository-root string, starts with `./`, or is not absolute. -/
def validateFilePath (config : SACLConfig) (filePath : String) : Bool :=
  let normalizedRepoPath := backslashToSlash config.repositoryPath
  let normalizedFilePath := backslashToSlash filePath
  Js.startsWith normalizedFilePath normalizedRepoPath ||
    Js.startsWith normalizedFilePath "./" ||
    !(Js.startsWith normalizedFilePath "/")

/-- `updateFile`: validate the path first (returning a failure with no
state change when validation fails); `created`/`modified` rerun the
pipeline (`processResult` models `processFile`'s outcome) and cache the
result, `deleted` evicts the cache entry (the Graphiti deletion is a
logging no-op). -/
def updateFile (config : SACLConfig)
    (processResult : String → Option CodeRepresentation)
    (st : ProcessorState) (filePath : String) (changeType : ChangeType) :
    ProcessorState × UpdateResult :=
  if !(validateFilePath config filePath) then
    (st, { success := false
           message := "File path " ++ filePath ++ " is outside repository" })
  else
    match changeType with
    | .created | .modified =>
      match processResult filePath with
      | some processed =>
        let st' := if config.cacheEnabled then
            { st with cache := cacheSet st.cache filePath processed }
          else st
        (st', { success := true
                message := "File " ++ filePath ++
                  " processed successfully. Bias score: " ++
                  Js.toFixed 3 processed.biasScore })
      | none =>
        (st, { success := false, message := "Failed to process file " ++ filePath })
    | .deleted =>
      ({ st with cache := cacheDelete st.cache filePath },
       { success := true
         message := "File " ++ filePath ++ " removed from cache and knowledge graph" })

/-- `maxResults || this.config.maxResults` (both `undefined` and `0`
are falsy). -/
def jsOrNat (maxResults : Option Nat) (d : Nat) : Nat :=
  match maxResults with
  | some n => if n = 0 then d else n
  | none => d

/-- `queryCode`: search with `limit * 2`, then rerank to `limit`. -/
def queryCode (config : SACLConfig) (gconfig : GraphitiConfig) (rand : Nat → ℚ)
    (now : Nat) (query : String) (maxResults : Option Nat) : List RetrievalResult :=
  let limit := jsOrNat maxResults config.maxResults
  let initialResults := GraphitiClient.searchCode gconfig rand now query (limit * 2)
  if initialResults.isEmpty then []
  else SACLReranker.rerank initialResults query limit

/-- `queryCodeWithContext`: search with `limit * 2`, then enhanced
rerank to `limit`. -/
def queryCodeWithContext (config : SACLConfig) (gconfig : GraphitiConfig)
    (rand : Nat → ℚ) (now : Nat) (query : String) (maxResults : Option Nat) :
    List EnhancedRetrievalResult :=
  let limit := jsOrNat maxResults config.maxResults
  let initialResults := GraphitiClient.searchCode gconfig rand now query (limit * 2)
  if initialResults.isEmpty then []
  else SACLReranker.rerankWithContext gconfig initialResults query limit

end SACLProcessor

/-! ## Verification constants and spec-modelled definitions -/

/-- Content of the Scenario A file: `import { foo } from "./bar"`. -/
def scenarioContent : String := "import \x7b foo \x7d from \"./bar\""

/-- Babel AST of `scenarioContent`: a single `ImportDeclaration` with
source `"./bar"` and one named specifier `foo`, on line 1. -/
def scenarioAst : CodeAnalyzer.RelAstList :=
  .cons (.importDecl "./bar" [.namedSpec (some "foo")] 1) .nil

/-- The `ImportRelation` Scenario A expects. -/
def scenarioImportRelation : ImportRelation :=
  { fromFile := "/workspace/a.js"
    toFile := "/workspace/bar"
    symbols := ["foo"]
    importType := .named
    lineNumber := some 1
    statement := scenarioContent }

/-- Modelled from the spec: "Path validation rejects any path that does
not resolve under the configured repository root" — after backslash
normalisation a path resolves under the root iff it equals the root or
lies strictly below it.  (Used only to compare the spec's wording with
`validateFilePath`.) -/
def specResolvesUnderRoot (root filePath : String) : Bool :=
  let r := SACLProcessor.backslashToSlash root
  let p := SACLProcessor.backslashToSlash filePath
  p == r || Js.startsWith p (r ++ "/")

/-- A processor configuration with repository root `/workspace`. -/
def wsConfig : SACLConfig :=
  { repositoryPath := "/workspace"
    nameSpace := "sacl-ws"
    llmModel := "gpt-4"
    embeddingModel := "text-embedding-3-small"
    biasThreshold := 0.5
    maxResults := 10
    cacheEnabled := true }

/-- A Graphiti client configuration (the mock never reads it). -/
def gConfig : GraphitiConfig :=
  { nameSpace := "sacl-ws"
    neo4jUri := "bolt://localhost:7687"
    neo4jUser := "neo4j"
    neo4jPassword := "pw"
    openaiApiKey := "key" }

/-! ## Helper lemmas -/

theorem Js.length_orderedInsert (lt : α → α → Bool) (x : α) (l : List α) :
    (Js.orderedInsert lt x l).length = l.length + 1 := by
  induction l with
  | nil => rfl
  | cons y ys ih =>
    simp only [Js.orderedInsert]
    split <;> simp [ih]

theorem Js.length_stableSort (lt : α → α → Bool) (l : List α) :
    (Js.stableSort lt l).length = l.length := by
  induction l with
  | nil => rfl
  | cons y ys ih =>
    simp only [Js.stableSort, List.foldr] at ih ⊢
    rw [Js.length_orderedInsert, ih, List.length_cons]

/-! ## Claims C1–C4 -/

/-- C1: `detectBias` builds a masked copy (docstrings/comments emptied,
identifiers and variables replaced by fixed placeholders, structural
features untouched), computes the per-metric similarity
`1 − |a−b| / max(a,b,1)` for complexity, nesting depth, function count
and class count, averages the four, and returns `1 − averageSimilarity`
clamped to `[0,1]`; the score is always in `[0,1]` and masking never
decreases any structural feature value. -/
theorem C1_detectBias_masking_formula (code : CodeRepresentation) :
    let masked := TextualBiasDetector.maskTextualFeatures code
    masked.textualFeatures.docstrings = [] ∧
    masked.textualFeatures.comments = [] ∧
    masked.textualFeatures.identifierNames
      = code.textualFeatures.identifierNames.map (fun _ => "masked_id") ∧
    masked.textualFeatures.variableNames
      = code.textualFeatures.variableNames.map (fun _ => "var_x") ∧
    masked.structuralFeatures = code.structuralFeatures ∧
    code.structuralFeatures.complexity ≤ masked.structuralFeatures.complexity ∧
    code.structuralFeatures.nestingDepth ≤ masked.structuralFeatures.nestingDepth ∧
    code.structuralFeatures.functionCount ≤ masked.structuralFeatures.functionCount ∧
    code.structuralFeatures.classCount ≤ masked.structuralFeatures.classCount ∧
    TextualBiasDetector.detectBias code =
      max 0 (min 1 (1 - TextualBiasDetector.calculateStructuralSimilarity code masked)) ∧
    TextualBiasDetector.calculateStructuralSimilarity code masked =
      ((1 - |(code.structuralFeatures.complexity : ℚ) - masked.structuralFeatures.complexity| /
          max (code.structuralFeatures.complexity : ℚ) (max (masked.structuralFeatures.complexity : ℚ) 1)) +
       (1 - |(code.structuralFeatures.nestingDepth : ℚ) - masked.structuralFeatures.nestingDepth| /
          max (code.structuralFeatures.nestingDepth : ℚ) (max (masked.structuralFeatures.nestingDepth : ℚ) 1)) +
       (1 - |(code.structuralFeatures.functionCount : ℚ) - masked.structuralFeatures.functionCount| /
          max (code.structuralFeatures.functionCount : ℚ) (max (masked.structuralFeatures.functionCount : ℚ) 1)) +
       (1 - |(code.structuralFeatures.classCount : ℚ) - masked.structuralFeatures.classCount| /
          max (code.structuralFeatures.classCount : ℚ) (max (masked.structuralFeatures.classCount : ℚ) 1))) / 4 ∧
    0 ≤ TextualBiasDetector.detectBias code ∧
    TextualBiasDetector.detectBias code ≤ 1 := by
  refine ⟨rfl, rfl, rfl, rfl, rfl, le_refl _, le_refl _, le_refl _, le_refl _, rfl, ?_, ?_, ?_⟩
  · simp only [TextualBiasDetector.calculateStructuralSimilarity, List.foldl,
      List.length_cons, List.length_nil]
    push_cast
    ring
  · exact le_max_left _ _
  · exact max_le (by norm_num) (min_le_left _ _)

/-- C2: because masking leaves the structural features identical, each
per-metric similarity is 1, the average is 1, and `detectBias` returns
exactly 0 for every code representation. -/
theorem C2_detectBias_always_zero (code : CodeRepresentation) :
    TextualBiasDetector.calculateStructuralSimilarity code
      (TextualBiasDetector.maskTextualFeatures code) = 1 ∧
    TextualBiasDetector.detectBias code = 0 := by
  have hsim : TextualBiasDetector.calculateStructuralSimilarity code
      (TextualBiasDetector.maskTextualFeatures code) = 1 := by
    simp only [TextualBiasDetector.calculateStructuralSimilarity,
      TextualBiasDetector.maskTextualFeatures]
    norm_num
  refine ⟨hsim, ?_⟩
  simp only [TextualBiasDetector.detectBias, TextualBiasDetector.calculateBiasScore, hsim]
  norm_num

/-- C3: the combined score is `Σ(score×weight) / Σ(weight)` with weights
textual `0.2×(1 − bias×0.5)`, semantic `0.5`, functional `0.3`; at
textualSim = 0.9, semanticSim = 0.5, functionalSim = 0.5, bias = 0.8 the
combined score is `127/230 ≈ 0.552`. -/
theorem C3_combineScores_formula_and_scenario :
    (∀ t s f b : ℚ, SACLReranker.combineScores t s f b =
      (t * (0.2 * (1 - b * 0.5)) + s * 0.5 + f * 0.3) /
        (0.2 * (1 - b * 0.5) + 0.5 + 0.3)) ∧
    SACLReranker.combineScores 0.9 0.5 0.5 0.8 = 127 / 230 ∧
    |SACLReranker.combineScores 0.9 0.5 0.5 0.8 - 0.552| < 1 / 1000 := by
  refine ⟨fun t s f b => rfl, ?_, ?_⟩
  · norm_num [SACLReranker.combineScores, SACLReranker.textualWeight]
  · rw [abs_lt]
    constructor <;> norm_num [SACLReranker.combineScores, SACLReranker.textualWeight]

/-- C4: for fixed textual/semantic/functional similarities, increasing
the bias score never increases the effective textual weight
`0.2×(1 − bias×0.5)`, and strictly increasing it strictly decreases the
weight. -/
theorem C4_textualWeight_antitone (b₁ b₂ : ℚ) :
    (b₁ ≤ b₂ → SACLReranker.textualWeight b₂ ≤ SACLReranker.textualWeight b₁) ∧
    (b₁ < b₂ → SACLReranker.textualWeight b₂ < SACLReranker.textualWeight b₁) := by
  constructor <;> intro h <;> simp only [SACLReranker.textualWeight] <;> nlinarith

/-- Witness for C4 at `b₁ = 0`, `b₂ = 1`. -/
theorem C4_textualWeight_antitone_witness :
    ((0 : ℚ) ≤ 1 ∧ SACLReranker.textualWeight 1 ≤ SACLReranker.textualWeight 0) ∧
    ((0 : ℚ) < 1 ∧ SACLReranker.textualWeight 1 < SACLReranker.textualWeight 0) :=
  ⟨⟨zero_le_one, (C4_textualWeight_antitone 0 1).1 zero_le_one⟩,
   ⟨zero_lt_one, (C4_textualWeight_antitone 0 1).2 zero_lt_one⟩⟩

/-- C5: import specifiers starting with `./` or `../` are resolved
against the importing file's directory and all other specifiers are
stored verbatim; the `ImportDeclaration` handler stores exactly that
resolved target; and the Scenario A file `/workspace/a.js` containing
`import { foo } from "./bar"` yields exactly one `ImportRelation` with
target `/workspace/bar`, symbols `["foo"]` and type `named`. -/
theorem C5_import_path_resolution (importPath currentFile : String)
    (parseR : String → Option CodeAnalyzer.RelAstList) (t : Nat)
    (lines : List String) (parent : Option CodeAnalyzer.RelAst)
    (specs : List CodeAnalyzer.ImportSpec) (line : Nat)
    (acc : CodeAnalyzer.RelationshipAcc) :
    (Js.startsWith importPath "./" = true ∨ Js.startsWith importPath "../" = true →
      CodeAnalyzer.resolveImportPath importPath currentFile =
        NodePath.resolve (NodePath.dirname currentFile) importPath) ∧
    (Js.startsWith importPath "./" = false ∧ Js.startsWith importPath "../" = false →
      CodeAnalyzer.resolveImportPath importPath currentFile = importPath) ∧
    (CodeAnalyzer.visitRel currentFile lines parent
        (.importDecl importPath specs line) acc).imports =
      acc.imports ++
        [{ fromFile := currentFile
           toFile := CodeAnalyzer.resolveImportPath importPath currentFile
           symbols := (CodeAnalyzer.foldImportSpecs specs).1
           importType := (CodeAnalyzer.foldImportSpecs specs).2
           lineNumber := some line
           statement := CodeAnalyzer.statementAt lines line }] ∧
    NodePath.resolve (NodePath.dirname "/workspace/a.js") "./bar" = "/workspace/bar" ∧
    (parseR scenarioContent = some scenarioAst →
      (CodeAnalyzer.extractRelationships parseR scenarioContent "/workspace/a.js"
          ".js" t).imports = [scenarioImportRelation]) := by
  refine ⟨?_, ?_, rfl, by decide, ?_⟩
  · intro h
    rcases h with h | h <;> simp [CodeAnalyzer.resolveImportPath, h]
  · intro ⟨h1, h2⟩
    simp [CodeAnalyzer.resolveImportPath, h1, h2]
  · intro hp
    simp only [CodeAnalyzer.extractRelationships,
      CodeAnalyzer.extractJavaScriptRelationships, hp]
    decide

/-- Witness for C5 at the Scenario A inputs. -/
theorem C5_import_path_resolution_witness :
    (Js.startsWith "./bar" "./" = true ∨ Js.startsWith "./bar" "../" = true) ∧
    CodeAnalyzer.resolveImportPath "./bar" "/workspace/a.js" =
      NodePath.resolve (NodePath.dirname "/workspace/a.js") "./bar" ∧
    ((fun _ : String => some scenarioAst) scenarioContent = some scenarioAst) ∧
    (CodeAnalyzer.extractRelationships (fun _ => some scenarioAst) scenarioContent
        "/workspace/a.js" ".js" 0).imports = [scenarioImportRelation] :=
  ⟨Or.inl (by decide),
   (C5_import_path_resolution "./bar" "/workspace/a.js" (fun _ => some scenarioAst)
      0 [] none [] 0 {}).1 (Or.inl (by decide)),
   rfl,
   (C5_import_path_resolution "./bar" "/workspace/a.js" (fun _ => some scenarioAst)
      0 [] none [] 0 {}).2.2.2.2 rfl⟩

/-- C6 (code bug): the claim says feature extraction never raises — an
AST parse failure falls back to the heuristic path and analysis never
yields a null representation.  In the source, however,
`extractStructuralFeatures` declares `const features` and *reassigns*
it in both fallback branches; the reassignment throws, the second
throw (inside the `catch` handler) escapes, and `analyzeFile` catches
it and returns `null`.  So every non-JS/TS file and every JS/TS file
whose parse fails produces a null representation, while the heuristic
features the fallback intended to assign are perfectly well defined. -/
theorem C6_structural_fallback_raises :
    (∀ (parseS : String → Option CodeAnalyzer.StructAst) (content : String),
      CodeAnalyzer.extractStructuralFeatures parseS content ".py" =
        .error "TypeError: Assignment to constant variable.") ∧
    CodeAnalyzer.analyzeFile (fun _ => none) (fun _ => none) 0 "/workspace/a.py"
      (some "x = 1") = none ∧
    CodeAnalyzer.extractStructuralFeatures (fun _ => none) "function (" ".js" =
      .error "TypeError: Assignment to constant variable." ∧
    CodeAnalyzer.analyzeFile (fun _ => none) (fun _ => none) 0 "/workspace/b.js"
      (some "function (") = none ∧
    CodeAnalyzer.intendedFallbackFeatures "x = 1" =
      { astNodes := 2, complexity := 1, nestingDepth := 0
        functionCount := 0, classCount := 0 } := by
  exact ⟨fun parseS content => rfl, rfl, rfl, rfl, by decide⟩

/-- C7 (counterexample): the claim says `updateFile` rejects *every*
path that does not resolve under the repository root.  Under root
`/workspace`, the path `/workspace2/evil.js` does not resolve under the
root, yet `validateFilePath` accepts it (string-prefix check), and
`updateFile` proceeds past validation (its failure message is the
process-failure one, not the rejection one).  Relative paths such as
`../../etc/passwd` are accepted as well. -/
theorem C7_path_validation_counterexample :
    SACLProcessor.validateFilePath wsConfig "/workspace2/evil.js" = true ∧
    specResolvesUnderRoot "/workspace" "/workspace2/evil.js" = false ∧
    (SACLProcessor.updateFile wsConfig (fun _ => none) ⟨[]⟩ "/workspace2/evil.js"
        .modified).2.message = "Failed to process file /workspace2/evil.js" ∧
    SACLProcessor.validateFilePath wsConfig "../../etc/passwd" = true ∧
    specResolvesUnderRoot "/workspace" "../../etc/passwd" = false := by
  refine ⟨by decide, by decide, rfl, by decide, by decide⟩

/-- C7 (amended): `updateFile` rejects a path exactly when its
backslash-normalised form is absolute, does not start with the
repository-root string, and does not start with `./`; a rejected call
returns the failure result with the explicit "outside repository"
message and leaves the state (cache, and the no-op graph store)
untouched.  In particular `/etc/passwd` under root `/workspace` is
rejected without mutation.  Paths that are relative or that merely
share the root as a string prefix are accepted. -/
theorem C7_path_validation_amended (config : SACLConfig)
    (processResult : String → Option CodeRepresentation)
    (st : ProcessorState) (filePath : String) (changeType : ChangeType) :
    (SACLProcessor.validateFilePath config filePath =
      (Js.startsWith (SACLProcessor.backslashToSlash filePath)
          (SACLProcessor.backslashToSlash config.repositoryPath) ||
        Js.startsWith (SACLProcessor.backslashToSlash filePath) "./" ||
        !(Js.startsWith (SACLProcessor.backslashToSlash filePath) "/"))) ∧
    (SACLProcessor.validateFilePath config filePath = false →
      SACLProcessor.updateFile config processResult st filePath changeType =
        (st, { success := false
               message := "File path " ++ filePath ++ " is outside repository" })) ∧
    SACLProcessor.validateFilePath wsConfig "/etc/passwd" = false := by
  refine ⟨rfl, ?_, by decide⟩
  intro h
  simp [SACLProcessor.updateFile, h]

/-- Witness for C7 (amended) at `updateFile('/etc/passwd', modified)`
under root `/workspace`: rejected with the explicit message, state
unchanged. -/
theorem C7_path_validation_amended_witness :
    SACLProcessor.validateFilePath wsConfig "/etc/passwd" = false ∧
    SACLProcessor.updateFile wsConfig (fun _ => none) ⟨[]⟩ "/etc/passwd" .modified =
      (⟨[]⟩, { success := false
               message := "File path /etc/passwd is outside repository" }) :=
  ⟨by decide,
   by
    have h := (C7_path_validation_amended wsConfig (fun _ => none) ⟨[]⟩
      "/etc/passwd" .modified).2.1 (by decide)
    simpa using h⟩

/-- C8 (counterexample): the claim says traversal scores a discovered
component as the traversed edge's type weight × (1/distance), and that
the chain A→B→C→D with unit weights and maxDepth 2 returns B (score =
weight) and C (score = weight/2) and excludes D.  In the code,
`storeRelationship` writes nothing, and `traverseRelationships` returns
name-derived mock components: from `"A"` it returns the single synthetic
`depends_on` component (score 0.7, distance 1) — not B, not C — and
0.7 differs from the `depends_on` type weight 0.6 divided by the
distance 1. -/
theorem C8_traversal_counterexample :
    GraphitiClient.storeRelationship gConfig "A" "B" .imports { weight := some 1 } = () ∧
    GraphitiClient.storeRelationship gConfig "B" "C" .imports { weight := some 1 } = () ∧
    GraphitiClient.storeRelationship gConfig "C" "D" .imports { weight := some 1 } = () ∧
    (GraphitiClient.traverseRelationships gConfig "A"
        [.imports, .exports, .calls, .extendsRel, .implementsRel] 2 0 0).relatedComponents.map
      (fun c => (c.filePath, c.relationshipType, c.relevanceScore, c.distance)) =
      [("A", RelationshipType.depends_on, 0.7, 1)] ∧
    ¬ ((0.7 : ℚ) =
        ((DEFAULT_RELATIONSHIP_WEIGHTS RelationshipType.depends_on).getD 0.5) * (1 / 1)) ∧
    "B" ∉ (GraphitiClient.traverseRelationships gConfig "A"
        [.imports, .exports, .calls, .extendsRel, .implementsRel] 2 0 0).relatedComponents.map
      (·.filePath) ∧
    "C" ∉ (GraphitiClient.traverseRelationships gConfig "A"
        [.imports, .exports, .calls, .extendsRel, .implementsRel] 2 0 0).relatedComponents.map
      (·.filePath) := by
  have hcomps : (GraphitiClient.traverseRelationships gConfig "A"
      [.imports, .exports, .calls, .extendsRel, .implementsRel] 2 0 0).relatedComponents =
      [{ filePath := "A", componentName := "A", componentType := .file
         relationshipType := .depends_on
         relationshipDescription := "Test file for this component"
         relevanceScore := 0.7, distance := 1 }] := by
    norm_num [GraphitiClient.traverseRelationships, GraphitiClient.getRelatedComponents,
      GraphitiClient.mergeTraversalConfig, GraphitiClient.defaultTraversalConfig,
      GraphitiClient.createMockRelatedComponents, Js.splitOnChar, Js.splitOnCharL,
      Js.includes, Js.containsL, Js.startsWithL, Js.replaceExtWithTest, Js.lastIdxOf,
      List.getLastD]
    decide
  refine ⟨rfl, rfl, rfl, ?_, ?_, ?_, ?_⟩
  · rw [hcomps]; norm_num
  · norm_num [DEFAULT_RELATIONSHIP_WEIGHTS]
  · rw [hcomps]; decide
  · rw [hcomps]; decide

/-- C8 (amended): relationship traversal ignores stored edges and the
requested relationship types; `getRelatedComponents` returns at most 5
name-derived synthetic components, each at distance 1, each with fixed
relevance score 0.7, 0.9 or 0.95 (not weight × 1/distance), all meeting
the merged `minRelevanceScore` and `maxDepth` bounds;
`traverseRelationships` simply republishes that list. -/
theorem C8_traversal_amended (config : GraphitiConfig) (filePath : String)
    (pcfg : PartialTraversalConfig) (types types' : List RelationshipType)
    (maxDepth t0 t1 : Nat) :
    (GraphitiClient.getRelatedComponents config filePath pcfg).length ≤ 5 ∧
    (GraphitiClient.getRelatedComponents config filePath pcfg).all
      (fun c => c.distance == 1) = true ∧
    (GraphitiClient.getRelatedComponents config filePath pcfg).all
      (fun c => decide (c.distance ≤ (GraphitiClient.mergeTraversalConfig pcfg).maxDepth)) = true ∧
    (GraphitiClient.getRelatedComponents config filePath pcfg).all
      (fun c => decide ((GraphitiClient.mergeTraversalConfig pcfg).minRelevanceScore ≤ c.relevanceScore)) = true ∧
    (GraphitiClient.getRelatedComponents config filePath pcfg).all
      (fun c => decide (c.relevanceScore = 0.7 ∨ c.relevanceScore = 0.9 ∨ c.relevanceScore = 0.95)) = true ∧
    GraphitiClient.getRelatedComponents config filePath
        { maxDepth := some maxDepth, relationshipTypes := some types } =
      GraphitiClient.getRelatedComponents config filePath
        { maxDepth := some maxDepth, relationshipTypes := some types' } ∧
    (GraphitiClient.traverseRelationships config filePath types maxDepth
        t0 t1).relatedComponents =
      GraphitiClient.getRelatedComponents config filePath
        { maxDepth := some maxDepth, relationshipTypes := some types } := by
  have key : ∀ (c : RelatedComponent),
      c ∈ GraphitiClient.getRelatedComponents config filePath pcfg →
      (c.distance = 1 ∧
        (c.relevanceScore = 0.7 ∨ c.relevanceScore = 0.9 ∨ c.relevanceScore = 0.95)) ∧
      (decide ((GraphitiClient.mergeTraversalConfig pcfg).minRelevanceScore ≤
          c.relevanceScore) &&
        decide (c.distance ≤ (GraphitiClient.mergeTraversalConfig pcfg).maxDepth)) =
        true := by
    intro c hc
    simp only [GraphitiClient.getRelatedComponents,
      GraphitiClient.createMockRelatedComponents] at hc
    have h1 := List.mem_of_mem_take hc
    have hp := List.of_mem_filter h1
    have hmem := List.mem_of_mem_filter h1
    refine ⟨?_, hp⟩
    rcases List.mem_append.1 hmem with h | h
    · rcases List.mem_append.1 h with h | h
      · cases hb : Js.includes ((Js.splitOnChar '/' filePath).getLastD "") "Service" <;>
          simp only [hb, if_true, if_false, Bool.false_eq_true, ite_true, ite_false,
            List.mem_singleton, List.not_mem_nil] at h
        subst h
        exact ⟨rfl, by norm_num⟩
      · cases hb : Js.includes ((Js.splitOnChar '/' filePath).getLastD "") "Controller" <;>
          simp only [hb, if_true, if_false, Bool.false_eq_true, ite_true, ite_false,
            List.mem_singleton, List.not_mem_nil] at h
        subst h
        exact ⟨rfl, by norm_num⟩
    · rw [List.mem_singleton] at h
      subst h
      exact ⟨rfl, by norm_num⟩
  refine ⟨?_, ?_, ?_, ?_, ?_, ?_, rfl⟩
  · simp only [GraphitiClient.getRelatedComponents,
      GraphitiClient.createMockRelatedComponents]
    exact List.length_take_le 5 _
  · refine List.all_eq_true.2 fun c hc => ?_
    have h := ((key c hc).1).1
    simp [h]
  · refine List.all_eq_true.2 fun c hc => ?_
    have h := (key c hc).2
    rw [Bool.and_eq_true] at h
    exact h.2
  · refine List.all_eq_true.2 fun c hc => ?_
    have h := (key c hc).2
    rw [Bool.and_eq_true] at h
    exact h.1
  · refine List.all_eq_true.2 fun c hc => ?_
    exact decide_eq_true ((key c hc).1).2
  · simp [GraphitiClient.getRelatedComponents, GraphitiClient.mergeTraversalConfig,
      GraphitiClient.createMockRelatedComponents, GraphitiClient.defaultTraversalConfig]

/-- C9 (amended): extraction is deterministic up to timestamps — the
relationship lists and structural features produced by
`extractRelationships` do not depend on the invocation time, and two
runs of `analyzeFile` on identical content and path agree on every
field except the `lastModified`/`lastAnalyzed` timestamps (and fail
identically). -/
theorem C9_extraction_deterministic (parseR : String → Option CodeAnalyzer.RelAstList)
    (parseS : String → Option CodeAnalyzer.StructAst)
    (content filePath extension : String) (t₁ t₂ : Nat)
    (readResult : Option String) :
    ((CodeAnalyzer.extractRelationships parseR content filePath extension t₁).imports =
      (CodeAnalyzer.extractRelationships parseR content filePath extension t₂).imports ∧
     (CodeAnalyzer.extractRelationships parseR content filePath extension t₁).exports =
      (CodeAnalyzer.extractRelationships parseR content filePath extension t₂).exports ∧
     (CodeAnalyzer.extractRelationships parseR content filePath extension t₁).functionCalls =
      (CodeAnalyzer.extractRelationships parseR content filePath extension t₂).functionCalls ∧
     (CodeAnalyzer.extractRelationships parseR content filePath extension t₁).classInheritance =
      (CodeAnalyzer.extractRelationships parseR content filePath extension t₂).classInheritance ∧
     (CodeAnalyzer.extractRelationships parseR content filePath extension t₁).dependencies =
      (CodeAnalyzer.extractRelationships parseR content filePath extension t₂).dependencies ∧
     (CodeAnalyzer.extractRelationships parseR content filePath extension t₁).compositions =
      (CodeAnalyzer.extractRelationships parseR content filePath extension t₂).compositions) ∧
    ((CodeAnalyzer.analyzeFile parseR parseS t₁ filePath readResult).map fun r =>
        (r.filePath, r.content, r.textualFeatures, r.structuralFeatures,
         r.semanticFeatures, r.biasScore, r.augmentedEmbedding)) =
      ((CodeAnalyzer.analyzeFile parseR parseS t₂ filePath readResult).map fun r =>
        (r.filePath, r.content, r.textualFeatures, r.structuralFeatures,
         r.semanticFeatures, r.biasScore, r.augmentedEmbedding)) ∧
    (((CodeAnalyzer.analyzeFile parseR parseS t₁ filePath readResult).bind
        (·.relationships)).map fun rel =>
        (rel.filePath, rel.imports, rel.exports, rel.functionCalls,
         rel.classInheritance, rel.dependencies, rel.compositions)) =
      (((CodeAnalyzer.analyzeFile parseR parseS t₂ filePath readResult).bind
        (·.relationships)).map fun rel =>
        (rel.filePath, rel.imports, rel.exports, rel.functionCalls,
         rel.classInheritance, rel.dependencies, rel.compositions)) ∧
    (CodeAnalyzer.analyzeFile parseR parseS t₁ filePath readResult = none ↔
      CodeAnalyzer.analyzeFile parseR parseS t₂ filePath readResult = none) := by
  refine ⟨⟨rfl, rfl, rfl, rfl, rfl, rfl⟩, ?_, ?_, ?_⟩ <;>
    (cases readResult with
     | none => simp [CodeAnalyzer.analyzeFile]
     | some content =>
       cases h : CodeAnalyzer.extractStructuralFeatures parseS content
           (NodePath.extname filePath) <;>
         simp [CodeAnalyzer.analyzeFile, h] <;>
         try exact ⟨rfl, rfl, rfl, rfl, rfl, rfl, rfl⟩)

/-- C9 (counterexample to the claim as stated): re-running `analyzeFile`
at a later time on unchanged input does not reproduce an identical
representation — the `lastModified` field records the run time. -/
theorem C9_identical_representation_counterexample :
    CodeAnalyzer.analyzeFile (fun _ => some .nil)
        (fun _ => some (.node .otherNode .nil)) 0 "/workspace/a.js" (some "") ≠
      CodeAnalyzer.analyzeFile (fun _ => some .nil)
        (fun _ => some (.node .otherNode .nil)) 1 "/workspace/a.js" (some "") ∧
    ((CodeAnalyzer.analyzeFile (fun _ => some .nil)
        (fun _ => some (.node .otherNode .nil)) 0 "/workspace/a.js" (some "")).map
      (·.lastModified)) = some 0 ∧
    ((CodeAnalyzer.analyzeFile (fun _ => some .nil)
        (fun _ => some (.node .otherNode .nil)) 1 "/workspace/a.js" (some "")).map
      (·.lastModified)) = some 1 := by
  have e0 : ((CodeAnalyzer.analyzeFile (fun _ => some .nil)
      (fun _ => some (.node .otherNode .nil)) 0 "/workspace/a.js" (some "")).map
      (·.lastModified)) = some 0 := rfl
  have e1 : ((CodeAnalyzer.analyzeFile (fun _ => some .nil)
      (fun _ => some (.node .otherNode .nil)) 1 "/workspace/a.js" (some "")).map
      (·.lastModified)) = some 1 := rfl
  refine ⟨fun h => ?_, e0, e1⟩
  have h2 := congrArg (Option.map (fun r : CodeRepresentation => r.lastModified)) h
  rw [e0, e1] at h2
  exact absurd h2 (by decide)

/-- C10: for every query and limit the mock graph search returns exactly
`min(limit, 5)` representations with the fixed synthetic paths
`src/example1.py` … `src/example5.py`, independently of the client
configuration and of the (no-op) store and delete operations; hence
`queryCode` and `queryCodeWithContext` never return more than 5 results
even when `maxResults` exceeds 5. -/
theorem C10_search_returns_mock_results (config config' : GraphitiConfig)
    (rand : Nat → ℚ) (now : Nat) (query : String) (limit : Nat)
    (rep : CodeRepresentation) (fp : String) (scfg : SACLConfig)
    (maxResults : Option Nat) :
    (GraphitiClient.searchCode config rand now query limit).length = min limit 5 ∧
    (GraphitiClient.searchCode config rand now query limit).map (·.filePath) =
      (List.range (min limit 5)).map
        (fun i => "src/example" ++ toString (i + 1) ++ ".py") ∧
    GraphitiClient.searchCode config rand now query limit =
      GraphitiClient.searchCode config' rand now query limit ∧
    GraphitiClient.storeCodeRepresentation config rep = () ∧
    GraphitiClient.deleteFileRelationships config fp = () ∧
    (SACLProcessor.queryCode scfg config rand now query maxResults).length ≤ 5 ∧
    (SACLProcessor.queryCodeWithContext scfg config rand now query
      maxResults).length ≤ 5 := by
  have hlen : ∀ n, (GraphitiClient.searchCode config rand now query n).length =
      min n 5 := fun n => by
    simp [GraphitiClient.searchCode, GraphitiClient.createMockSearchResults]
  refine ⟨hlen limit, ?_, rfl, rfl, rfl, ?_, ?_⟩
  · simp [GraphitiClient.searchCode, GraphitiClient.createMockSearchResults,
      List.map_map, Function.comp]
  · simp only [SACLProcessor.queryCode]
    by_cases h : (GraphitiClient.searchCode config rand now query
        ((SACLProcessor.jsOrNat maxResults scfg.maxResults) * 2)).isEmpty
    · simp [h]
    · simp only [h, Bool.false_eq_true, if_false]
      simp only [SACLReranker.rerank]
      rw [List.length_take, Js.length_stableSort, List.length_map, hlen]
      exact le_trans (min_le_right _ _) (min_le_right _ _)
  · simp only [SACLProcessor.queryCodeWithContext]
    by_cases h : (GraphitiClient.searchCode config rand now query
        ((SACLProcessor.jsOrNat maxResults scfg.maxResults) * 2)).isEmpty
    · simp [h]
    · simp only [h, Bool.false_eq_true, if_false]
      simp only [SACLReranker.rerankWithContext]
      rw [List.length_take, Js.length_stableSort, List.length_map, hlen]
      exact le_trans (min_le_right _ _) (min_le_right _ _)
